import Mathlib

/-!
Shallow embedding of the plotting helpers of the penguin_palmer repository
(src/eda_palmer_penguins_packages/categorical_analysis/cateogry.py and
src/eda_palmer_penguins_packages/numerical_analysis/numerical.py).

A dataframe is a list of rows; a row stores its categorical fields and its
numeric fields as association lists (a missing entry models a NaN cell).
Each rendering function is translated into a pure function that returns a
`Render` value: the trace of figure-allocation and chart-drawing events, the
list of fully configured panels (one per grid cell that completed), the
optional figure suptitle, and the optional Python exception it ends with.

The matplotlib behaviour the code relies on is embedded explicitly:
`plt.subplots` with `squeeze=True` returns a scalar axes for a 1x1 grid, a
one-dimensional array when exactly one of the dimensions is 1, and a
two-dimensional array otherwise; indexing a scalar axes raises TypeError and
out-of-range indexing raises IndexError.  `set_title`/`set_xlabel`/
`set_ylabel` with None store the empty string (matplotlib Text.set_text).
Figure sizes, tick-label rotation and line paddings are purely presentational
and are not modelled.  Error strings abbreviate the Python exception text,
except the ValueError of plot_categorical_vs_numeric which is kept verbatim.
-/

/-- One record of the tabular dataset: categorical fields (string labels) and
numeric fields (idealised as rationals), both as association lists; an absent
key models a missing (NaN) cell. -/
structure Row where
  cat : List (String × String)
  num : List (String × ℚ)
deriving DecidableEq, Repr

/-- The values of categorical column `c`, one per row in row order, `none`
standing for a missing cell. -/
def colValues (df : List Row) (c : String) : List (Option String) :=
  df.map (fun r => r.cat.lookup c)

/-- The non-missing values of categorical column `c`, in row order.  This is
what pandas value_counts (dropna=True) counts. -/
def colValuesDropna (df : List Row) (c : String) : List String :=
  df.filterMap (fun r => r.cat.lookup c)

/-- The non-missing values of numeric column `c`, in row order.  Seaborn
drops missing values before drawing and before estimating a density. -/
def colNumDropna (df : List Row) (c : String) : List ℚ :=
  df.filterMap (fun r => r.num.lookup c)

/-- The caller-supplied descriptive-statistics table of plot_histograms:
column names in order, and rows keyed by statistic name (such as 25%, 75%,
mean), each row an association list from column name to value. -/
structure StatsTable where
  columns : List String
  rows : List (String × List (String × ℚ))
deriving DecidableEq, Repr

/-- Embeds pandas `stats.loc[stat, c]`: `none` models the KeyError raised
when either label is absent. -/
def StatsTable.loc (t : StatsTable) (stat : String) (c : String) : Option ℚ :=
  (t.rows.lookup stat).bind (fun row => row.lookup c)

/-- The shape of the value returned by `plt.subplots(nrows, ncols)` with the
default `squeeze=True`: a scalar axes, a one-dimensional axes array, or a
two-dimensional axes array. -/
inductive AxShape where
  | scalar : AxShape
  | line (n : Nat) : AxShape
  | grid (r c : Nat) : AxShape
deriving DecidableEq, Repr

/-- Embeds `plt.subplots(nrows, ncols)`: matplotlib rejects a non-positive
grid dimension, and squeezes the axes array as described on `AxShape`. -/
def subplotsShape (nrows ncols : Nat) : Except String AxShape :=
  if nrows = 0 then .error "ValueError: number of rows must be a positive integer"
  else if ncols = 0 then .error "ValueError: number of columns must be a positive integer"
  else if nrows = 1 ∧ ncols = 1 then .ok .scalar
  else if nrows = 1 then .ok (.line ncols)
  else if ncols = 1 then .ok (.line nrows)
  else .ok (.grid nrows ncols)

/-- Embeds the single subscript `axs[i]`: a scalar axes is not subscriptable
(TypeError), a one-dimensional array checks the bound. -/
def index1D (s : AxShape) (i : Nat) : Except String Unit :=
  match s with
  | .scalar => .error "TypeError: Axes object is not subscriptable"
  | .line n => if i < n then .ok () else .error "IndexError: axes index out of range"
  | .grid r _ => if i < r then .ok () else .error "IndexError: axes index out of range"

/-- Embeds the chained double subscript `axs[i][j]`: only a two-dimensional
axes array accepts it; a scalar axes raises TypeError, on a one-dimensional
array the second subscript hits a scalar axes (TypeError) when the first is
in range, and out-of-range indices raise IndexError. -/
def index2D (s : AxShape) (i j : Nat) : Except String Unit :=
  match s with
  | .scalar => .error "TypeError: Axes object is not subscriptable"
  | .line n =>
    if i < n then .error "TypeError: Axes object is not subscriptable"
    else .error "IndexError: axes index out of range"
  | .grid r c =>
    if i < r ∧ j < c then .ok () else .error "IndexError: axes index out of range"

/-- Embeds the tuple double subscript `axs[i, j]`: only a two-dimensional
axes array accepts it; a scalar axes raises TypeError, and on a squeezed
one-dimensional array numpy rejects the two-element tuple index with
IndexError (too many indices). -/
def index2Dtuple (s : AxShape) (i j : Nat) : Except String Unit :=
  match s with
  | .scalar => .error "TypeError: Axes object is not subscriptable"
  | .line _ => .error "IndexError: too many indices for array"
  | .grid r c =>
    if i < r ∧ j < c then .ok () else .error "IndexError: axes index out of range"

/-- Embeds matplotlib `set_title` / `set_xlabel` / `set_ylabel`: Text.set_text
stores the empty string when given None. -/
def setText (o : Option String) : String := o.getD ""

/-- The kind of seaborn chart drawn into a panel. -/
inductive PlotKind where
  | count : PlotKind
  | violin : PlotKind
  | box : PlotKind
  | hist : PlotKind
deriving DecidableEq, Repr

/-- One seaborn drawing call, with the data subset and the parameters the
source passes (parameters a call does not pass are `none` / `false`). -/
structure DrawnPlot where
  kind : PlotKind
  data : List Row
  x : Option String
  y : Option String
  hue : Option String
  split : Bool
  bins : Option Nat
  multiple : Option String
  kde : Bool
  palette : Option String
  color : Option String
  alpha : Option ℚ
deriving DecidableEq, Repr

/-- One bar patch of a seaborn barplot: bars sit at integer category
positions with width 0.8, so bar `k` has `get_x() = k - 0.4`. -/
structure Bar where
  label : String
  x : ℚ
  width : ℚ
  height : ℚ
deriving DecidableEq, Repr

/-- One `ax.text` call: position and string. -/
structure TextNote where
  x : ℚ
  y : ℚ
  txt : String
deriving DecidableEq, Repr

/-- One `ax.axvline` call. -/
structure VLine where
  x : ℚ
  color : String
  linestyle : String
  linewidth : ℚ
  label : String
deriving DecidableEq, Repr

/-- The final configuration of one subplot panel (axes) of the figure. -/
structure Panel where
  row : Nat
  col : Nat
  draws : List DrawnPlot
  bars : List Bar
  barPalette : Option String
  notes : List TextNote
  vlines : List VLine
  legend : Bool
  kdeColor : Option String
  title : String
  xlabel : String
  ylabel : String
  ylim : Option (ℚ × ℚ)
deriving DecidableEq, Repr

/-- A fresh axes as matplotlib creates it: nothing drawn, empty texts. -/
def basePanel (row col : Nat) : Panel :=
  { row := row, col := col, draws := [], bars := [], barPalette := none,
    notes := [], vlines := [], legend := false, kdeColor := none, title := "",
    xlabel := "", ylabel := "", ylim := none }

/-- A trace event: the figure/axes-grid allocation of `plt.subplots`, or one
seaborn drawing call. -/
inductive Ev where
  | figure (nrows ncols : Nat) : Ev
  | draw (p : DrawnPlot) : Ev
deriving DecidableEq, Repr

/-- What one loop iteration (one grid cell) of a renderer produces: the
drawing events it emitted, its fully configured panel when it completed, and
the Python exception it raised otherwise. -/
structure CellOut where
  evs : List Ev
  panel : Option Panel
  err : Option String
deriving DecidableEq, Repr

/-- The outcome of one rendering function: the event trace, the completed
panels in loop order, the figure suptitle if one was set, and the exception
the call ends with, if any. -/
structure Render where
  events : List Ev
  panels : List Panel
  suptitle : Option String
  err : Option String
deriving DecidableEq, Repr

/-- Runs the loop bodies of a renderer in order, stopping at the first
exception, and collects events, completed panels and the exception. -/
def runCells (f : α → CellOut) : List α → List Ev × List Panel × Option String
  | [] => ([], [], none)
  | c :: cs =>
    let o := f c
    match o.err with
    | some e => (o.evs, o.panel.toList, some e)
    | none =>
      let r := runCells f cs
      (o.evs ++ r.1, o.panel.toList ++ r.2.1, r.2.2)

/-- Embeds Python `enumerate` starting at `k`. -/
def enumFrom (k : Nat) : List α → List (Nat × α)
  | [] => []
  | a :: as => (k, a) :: enumFrom (k + 1) as

/-- The nested `for i, i_col in enumerate(rows): for j, j_col in
enumerate(cols):` cell order of the grid renderers. -/
def gridCells (rows cols : List String) : List ((Nat × String) × (Nat × String)) :=
  (enumFrom 0 rows).flatMap (fun p => (enumFrom 0 cols).map (fun q => (p, q)))

/-- Rounding to the nearest integer with ties to even, as Python float
formatting does on the idealised (exact) value. -/
def roundHalfEven (q : ℚ) : ℤ :=
  let f := ⌊q⌋
  let r := q - (f : ℚ)
  if r < 1/2 then f
  else if 1/2 < r then f + 1
  else if f % 2 = 0 then f else f + 1

/-- Two decimal digits with a leading zero. -/
def natPad2 (n : Nat) : String :=
  if n < 10 then "0" ++ toString n else toString n

/-- Embeds the Python format specifier .2f applied to an idealised exact
value: the number rendered with exactly two digits after the decimal point. -/
def pyFormat2 (q : ℚ) : String :=
  let cents := roundHalfEven (q * 100)
  let sign := if cents < 0 then "-" else ""
  let a := cents.natAbs
  sign ++ toString (a / 100) ++ "." ++ natPad2 (a % 100)

/-- Descending order on counted values, the presentation order of pandas
value_counts.  The callers below re-sort by label immediately (sort_index),
so only the multiset of pairs matters downstream. -/
def countGe (p q : String × ℚ) : Prop := q.2 ≤ p.2

instance : DecidableRel countGe :=
  fun p q => inferInstanceAs (Decidable (q.2 ≤ p.2))

/-- Ascending order on the index (the category label), the order produced by
pandas sort_index. -/
def labelLe (p q : String × ℚ) : Prop := p.1 ≤ q.1

instance : DecidableRel labelLe :=
  fun p q => inferInstanceAs (Decidable (p.1 ≤ q.1))

instance : IsTotal (String × ℚ) labelLe :=
  ⟨fun p q => le_total p.1 q.1⟩

instance : IsTrans (String × ℚ) labelLe :=
  ⟨fun _ _ _ h h' => le_trans h h'⟩

/-- Embeds `series.value_counts(normalize=True)` over the non-missing values
of a column: each distinct value with its count divided by the number of
non-missing values, presented in descending count order. -/
def valueCounts (vals : List String) : List (String × ℚ) :=
  List.insertionSort countGe
    (vals.dedup.map (fun v => (v, (vals.count v : ℚ) / (vals.length : ℚ))))

/-- Embeds `series.sort_index()`: sort the pairs ascending by label. -/
def sortIndex (l : List (String × ℚ)) : List (String × ℚ) :=
  List.insertionSort labelLe l

/-- Loop body of plot_category_count for panel `i` over column `category`:
sns.countplot into `axs[i]`, then title, x and y labels from the column. -/
def countCell (df : List Row) (color_palette : Option String) (alpha : ℚ)
    (shape : AxShape) : Nat × String → CellOut :=
  fun p =>
    let i := p.1
    let category := p.2
    match index1D shape i with
    | .error e => { evs := [], panel := none, err := some e }
    | .ok _ =>
      let d : DrawnPlot :=
        { kind := .count, data := df, x := some category, y := none,
          hue := none, split := false, bins := none, multiple := none,
          kde := false, palette := color_palette, color := none,
          alpha := some alpha }
      { evs := [.draw d],
        panel := some
          { basePanel 0 i with
            draws := [d],
            title := category ++ " Count",
            xlabel := category, ylabel := "Count" },
        err := none }

/-- Embeds plot_category_count (cateogry.py): one row of count panels, one
per selected categorical column. -/
def plot_category_count (df : List Row) (category_columns : List String)
    (color_palette : Option String) (alpha : ℚ) : Render :=
  match subplotsShape 1 category_columns.length with
  | .error e => { events := [], panels := [], suptitle := none, err := some e }
  | .ok shape =>
    let r := runCells (countCell df color_palette alpha shape)
      (enumFrom 0 category_columns)
    { events := .figure 1 category_columns.length :: r.1, panels := r.2.1,
      suptitle := none, err := r.2.2 }

/-- Loop body of plot_category_proportions for panel `i` over column
`category`: value_counts(normalize=True) * 100, sort_index, barplot, one
percentage text just above each bar, fixed y range 0..100. -/
def propCell (df : List Row) (color_palette : Option String)
    (shape : AxShape) : Nat × String → CellOut :=
  fun p =>
    let i := p.1
    let category := p.2
    match index1D shape i with
    | .error e => { evs := [], panel := none, err := some e }
    | .ok _ =>
      let proportions0 :=
        (valueCounts (colValuesDropna df category)).map (fun q => (q.1, q.2 * 100))
      let proportions := sortIndex proportions0
      let bars := (enumFrom 0 proportions).map
        (fun q => { label := q.2.1, x := (q.1 : ℚ) - 2/5, width := 4/5,
                    height := q.2.2 : Bar })
      let notes := bars.map
        (fun b => { x := b.x + b.width / 2, y := b.height + 1,
                    txt := pyFormat2 b.height ++ "%" : TextNote })
      { evs := [],
        panel := some
          { basePanel 0 i with
            bars := bars, barPalette := color_palette, notes := notes,
            title := "Proportion of " ++ category,
            xlabel := category, ylabel := "Proportion (%)",
            ylim := some (0, 100) },
        err := none }

/-- Embeds plot_category_proportions (cateogry.py): one row of percentage bar
panels; when only one column is selected the scalar axes is wrapped into a
one-element list (`if num_subplots == 1: axs = [axs]`). -/
def plot_category_proportions (df : List Row) (category_columns : List String)
    (color_palette : Option String) : Render :=
  let num_subplots := category_columns.length
  match subplotsShape 1 num_subplots with
  | .error e => { events := [], panels := [], suptitle := none, err := some e }
  | .ok shape0 =>
    let shape := if num_subplots = 1 then AxShape.line 1 else shape0
    let r := runCells (propCell df color_palette shape)
      (enumFrom 0 category_columns)
    { events := .figure 1 num_subplots :: r.1, panels := r.2.1,
      suptitle := none, err := r.2.2 }

/-- Loop body of plot_categorical_vs_numeric for cell (i, j): a violinplot
with `split=True if i == 2 else False`, or a boxplot, of numeric column
`j_col` against the fixed x column species with hue `i_col`; any other
plot_type raises the ValueError before touching the axes.  The violin
branch uses the tuple subscript axs[i, j], the box branch the chained
axs[i][j].  The title is the numeric column name on the top row only, and
both axis labels are cleared. -/
def cvnCell (df : List Row) (plot_type : String) (palette : Option String)
    (shape : AxShape) : (Nat × String) × (Nat × String) → CellOut :=
  fun c =>
    let i := c.1.1
    let i_col := c.1.2
    let j := c.2.1
    let j_col := c.2.2
    if plot_type = "violin" then
      match index2Dtuple shape i j with
      | .error e => { evs := [], panel := none, err := some e }
      | .ok _ =>
        let d : DrawnPlot :=
          { kind := .violin, data := df, x := some "species", y := some j_col,
            hue := some i_col, split := (if i = 2 then true else false),
            bins := none, multiple := none, kde := false, palette := palette,
            color := none, alpha := none }
        { evs := [.draw d],
          panel := some
            { basePanel i j with
              draws := [d],
              title := setText (if i = 0 then some j_col else none),
              xlabel := setText none, ylabel := setText none },
          err := none }
    else if plot_type = "box" then
      match index2D shape i j with
      | .error e => { evs := [], panel := none, err := some e }
      | .ok _ =>
        let d : DrawnPlot :=
          { kind := .box, data := df, x := some "species", y := some j_col,
            hue := some i_col, split := false, bins := none, multiple := none,
            kde := false, palette := palette, color := none, alpha := none }
        { evs := [.draw d],
          panel := some
            { basePanel i j with
              draws := [d],
              title := setText (if i = 0 then some j_col else none),
              xlabel := setText none, ylabel := setText none },
          err := none }
    else
      { evs := [], panel := none,
        err := some "ValueError: plot_type must be either 'violin' or 'box'" }

/-- Embeds plot_categorical_vs_numeric (cateogry.py): an RxC grid, rows the
categorical columns, columns the numeric columns. -/
def plot_categorical_vs_numeric (df : List Row) (category_columns : List String)
    (numeric_columns : List String) (plot_type : String)
    (palette : Option String) : Render :=
  let num_rows := category_columns.length
  let num_cols := numeric_columns.length
  match subplotsShape num_rows num_cols with
  | .error e => { events := [], panels := [], suptitle := none, err := some e }
  | .ok shape =>
    let r := runCells (cvnCell df plot_type palette shape)
      (gridCells category_columns numeric_columns)
    { events := .figure num_rows num_cols :: r.1, panels := r.2.1,
      suptitle := none, err := r.2.2 }

/-- Loop body of plot_histograms for panel `i` over statistics column `col`:
sns.histplot of the dataframe column, recolor the kde line via lines[0],
then the three dashed reference lines at the caller-supplied 25%, 75% and
mean entries, then the legend.  Seaborn draws the kde line only when kde is
requested and the column holds at least two distinct non-missing values
(an empty or zero-variance column gets no density estimate); otherwise the
axes has no lines and lines[0] raises IndexError. -/
def histCell (df : List Row) (numerical_stats : StatsTable)
    (color_palette : Option String) (bins : Nat) (alpha : ℚ) (color : String)
    (kde : Bool) (shape : AxShape) : Nat × String → CellOut :=
  fun p =>
    let i := p.1
    let col := p.2
    match index1D shape i with
    | .error e => { evs := [], panel := none, err := some e }
    | .ok _ =>
      let d : DrawnPlot :=
        { kind := .hist, data := df, x := some col, y := none, hue := none,
          split := false, bins := some bins, multiple := none, kde := kde,
          palette := color_palette, color := some color, alpha := some alpha }
      if kde = true ∧ 2 ≤ (colNumDropna df col).dedup.length then
        match numerical_stats.loc "25%" col with
        | none => { evs := [.draw d], panel := none, err := some "KeyError: 25%" }
        | some q1 =>
          match numerical_stats.loc "75%" col with
          | none => { evs := [.draw d], panel := none, err := some "KeyError: 75%" }
          | some q3 =>
            match numerical_stats.loc "mean" col with
            | none => { evs := [.draw d], panel := none, err := some "KeyError: mean" }
            | some m =>
              { evs := [.draw d],
                panel := some
                  { basePanel 0 i with
                    draws := [d],
                    kdeColor := some "#4c36f5",
                    vlines :=
                      [ { x := q1, color := "#f26a02", linestyle := "dashed",
                          linewidth := 5/2, label := "Q1" },
                        { x := q3, color := "#bd00b0", linestyle := "dashed",
                          linewidth := 5/2, label := "Q3" },
                        { x := m, color := "#f75c6b", linestyle := "dashed",
                          linewidth := 5/2, label := "Mean" } ],
                    legend := true },
                err := none }
      else
        { evs := [.draw d], panel := none,
          err := some "IndexError: list index out of range" }

/-- Embeds plot_histograms (numerical.py): one row of histogram panels, one
per column of the caller-supplied statistics table. -/
def plot_histograms (df : List Row) (numerical_stats : StatsTable)
    (color_palette : Option String) (bins : Nat) (alpha : ℚ) (color : String)
    (kde : Bool) : Render :=
  match subplotsShape 1 numerical_stats.columns.length with
  | .error e => { events := [], panels := [], suptitle := none, err := some e }
  | .ok shape =>
    let r := runCells
      (histCell df numerical_stats color_palette bins alpha color kde shape)
      (enumFrom 0 numerical_stats.columns)
    { events := .figure 1 numerical_stats.columns.length :: r.1,
      panels := r.2.1, suptitle := none, err := r.2.2 }

/-- Loop body of plot_distributions for cell (i, j): a 40-bin histplot of
numeric column `j_col` with hue `i_col`, multiple dodge (the source writes
the dead conditional stack-if-1==2-else-dodge), kde overlay; title on the
top row only, axis labels cleared. -/
def distCell (df : List Row) (palette : Option String)
    (shape : AxShape) : (Nat × String) × (Nat × String) → CellOut :=
  fun c =>
    let i := c.1.1
    let i_col := c.1.2
    let j := c.2.1
    let j_col := c.2.2
    match index2D shape i j with
    | .error e => { evs := [], panel := none, err := some e }
    | .ok _ =>
      let d : DrawnPlot :=
        { kind := .hist, data := df, x := some j_col, y := none,
          hue := some i_col, split := false, bins := some 40,
          multiple := some (if (1 : Nat) = 2 then "stack" else "dodge"),
          kde := true, palette := palette, color := none, alpha := none }
      { evs := [.draw d],
        panel := some
          { basePanel i j with
            draws := [d],
            title := setText (if i = 0 then some j_col else none),
            xlabel := setText none, ylabel := setText none },
        err := none }

/-- Embeds plot_distributions (numerical.py): an RxC grid, rows the
categorical columns, columns the numeric columns. -/
def plot_distributions (df : List Row) (category_columns : List String)
    (numeric_columns : List String) (palette : Option String) : Render :=
  let num_rows := category_columns.length
  let num_cols := numeric_columns.length
  match subplotsShape num_rows num_cols with
  | .error e => { events := [], panels := [], suptitle := none, err := some e }
  | .ok shape =>
    let r := runCells (distCell df palette shape)
      (gridCells category_columns numeric_columns)
    { events := .figure num_rows num_cols :: r.1, panels := r.2.1,
      suptitle := none, err := r.2.2 }

/-- The filtered subset `df[df["species"] == species]`: rows whose species
field is present and exactly equal to the requested label (a missing field
compares unequal, as NaN does). -/
def speciesFilter (df : List Row) (species : String) : List Row :=
  df.filter (fun r => r.cat.lookup "species" == some species)

/-- Loop body of plot_distribution_specie for cell (i, j): a layered histplot
of numeric column `i_col` of the filtered subset with hue `j_col` and kde
overlay; the leftmost column carries the numeric column name as y label, the
x label is cleared, the title is never set. -/
def specieCell (species_data : List Row) (penguin_color : Option String)
    (bins : Nat) (shape : AxShape) : (Nat × String) × (Nat × String) → CellOut :=
  fun c =>
    let i := c.1.1
    let i_col := c.1.2
    let j := c.2.1
    let j_col := c.2.2
    match index2D shape i j with
    | .error e => { evs := [], panel := none, err := some e }
    | .ok _ =>
      let d : DrawnPlot :=
        { kind := .hist, data := species_data, x := some i_col, y := none,
          hue := some j_col, split := false, bins := some bins,
          multiple := some "layer", kde := true, palette := penguin_color,
          color := none, alpha := none }
      { evs := [.draw d],
        panel := some
          { basePanel i j with
            draws := [d],
            ylabel := setText (if j = 0 then some i_col else none),
            xlabel := setText none },
        err := none }

/-- Embeds plot_distribution_specie (numerical.py): filter to the requested
species, then an RxC grid with rows the numeric columns and columns the
categorical columns, and the species named in the figure suptitle. -/
def plot_distribution_specie (df : List Row) (numeric_columns : List String)
    (category_columns : List String) (species : String)
    (penguin_color : Option String) (bins : Nat) : Render :=
  let species_data := speciesFilter df species
  let num_rows := numeric_columns.length
  let num_cols := category_columns.length
  match subplotsShape num_rows num_cols with
  | .error e => { events := [], panels := [], suptitle := none, err := some e }
  | .ok shape =>
    let r := runCells (specieCell species_data penguin_color bins shape)
      (gridCells numeric_columns category_columns)
    { events := .figure num_rows num_cols :: r.1, panels := r.2.1,
      suptitle := some (species ++ " Species"), err := r.2.2 }

/-- The columns drawn into, in drawing order, read off an event trace. -/
def drawCols (evs : List Ev) : List String :=
  evs.filterMap (fun e => match e with
    | .figure _ _ => none
    | .draw d => d.x)

/-- A placeholder drawing used only as the default of `List.headD` when a
witness statement picks the first drawing of a panel. -/
def noDraw : DrawnPlot :=
  { kind := .count, data := [], x := none, y := none, hue := none,
    split := false, bins := none, multiple := none, kde := false,
    palette := none, color := none, alpha := none }

/-- Witness dataset: three penguin-like rows with every categorical field
present. -/
def rowAdelieA : Row :=
  { cat := [("species", "Adelie"), ("island", "Biscoe"), ("sex", "male")],
    num := [("bl", 39)] }

/-- Witness dataset row: a Gentoo penguin on Dream. -/
def rowGentoo : Row :=
  { cat := [("species", "Gentoo"), ("island", "Dream"), ("sex", "female")],
    num := [("bl", 46)] }

/-- Witness dataset row: a second Adelie penguin on Biscoe. -/
def rowAdelieB : Row :=
  { cat := [("species", "Adelie"), ("island", "Biscoe"), ("sex", "female")],
    num := [("bl", 40)] }

/-- Witness dataset: three rows, two islands, two sexes, two species. -/
def dfW : List Row := [rowAdelieA, rowGentoo, rowAdelieB]

/-- Witness row with both numeric columns present. -/
def rowH1 : Row :=
  { cat := [("species", "Adelie")], num := [("bl", 39), ("bm", 18)] }

/-- Witness row with both numeric columns present, distinct values. -/
def rowH2 : Row :=
  { cat := [("species", "Gentoo")], num := [("bl", 46), ("bm", 14)] }

/-- Witness row with both numeric columns present, a third value set. -/
def rowH3 : Row :=
  { cat := [("species", "Chinstrap")], num := [("bl", 50), ("bm", 20)] }

/-- Witness dataset for plot_histograms: both statistics columns carry at
least two distinct values, so the kde line is drawn in every panel. -/
def dfH : List Row := [rowH1, rowH2]

/-- A second such witness dataset with different values. -/
def dfH2 : List Row := [rowH1, rowH3]

/-- Witness statistics table for plot_histograms: two columns with all three
required statistics present. -/
def statsW : StatsTable :=
  { columns := ["bl", "bm"],
    rows := [("25%", [("bl", 39), ("bm", 1)]),
             ("75%", [("bl", 46), ("bm", 2)]),
             ("mean", [("bl", 41), ("bm", 3)])] }

theorem enumFrom_length (k : Nat) (l : List α) :
    (enumFrom k l).length = l.length := by
  induction l generalizing k with
  | nil => rfl
  | cons a as ih => simp [enumFrom, ih]

theorem mem_enumFrom {l : List α} {k : Nat} {p : Nat × α}
    (h : p ∈ enumFrom k l) :
    k ≤ p.1 ∧ p.1 - k < l.length ∧ ∀ d, l.getD (p.1 - k) d = p.2 := by
  induction l generalizing k with
  | nil => simp [enumFrom] at h
  | cons a as ih =>
    simp only [enumFrom, List.mem_cons] at h
    rcases h with h | h
    · subst h
      simp [List.getD]
    · obtain ⟨h1, h2, h3⟩ := ih h
      refine ⟨le_trans (Nat.le_succ k) h1, ?_, ?_⟩
      · have : p.1 - k = (p.1 - (k + 1)) + 1 := by omega
        simp only [List.length_cons]
        omega
      · intro d
        have hk : p.1 - k = (p.1 - (k + 1)) + 1 := by omega
        rw [hk]
        simpa using h3 d

theorem mem_enumFrom_zero {l : List α} {p : Nat × α} (h : p ∈ enumFrom 0 l) :
    p.1 < l.length ∧ ∀ d, l.getD p.1 d = p.2 := by
  obtain ⟨_, h2, h3⟩ := mem_enumFrom h
  simp only [Nat.sub_zero] at h2 h3
  exact ⟨h2, h3⟩

theorem enumFrom_map_snd (k : Nat) (l : List α) :
    (enumFrom k l).map Prod.snd = l := by
  induction l generalizing k with
  | nil => rfl
  | cons a as ih => simp [enumFrom, ih]

theorem mem_gridCells {rows cols : List String}
    {c : (Nat × String) × (Nat × String)} (h : c ∈ gridCells rows cols) :
    c.1 ∈ enumFrom 0 rows ∧ c.2 ∈ enumFrom 0 cols := by
  simp only [gridCells, List.mem_flatMap, List.mem_map] at h
  obtain ⟨p, hp, q, hq, rfl⟩ := h
  exact ⟨hp, hq⟩

theorem getD_mem {l : List α} {k : Nat} (h : k < l.length) (d : α) :
    l.getD k d ∈ l := by
  rw [List.getD_eq_getElem l d h]
  exact List.getElem_mem h

theorem runCells_panels_mem {f : α → CellOut} {cs : List α} {p : Panel}
    (h : p ∈ (runCells f cs).2.1) : ∃ c ∈ cs, (f c).panel = some p := by
  induction cs with
  | nil => simp [runCells] at h
  | cons c cs ih =>
    simp only [runCells] at h
    rcases he : (f c).err with _ | e
    · rw [he] at h
      simp only [List.mem_append] at h
      rcases h with h | h
      · rcases hp : (f c).panel with _ | q
        · rw [hp] at h; simp at h
        · rw [hp] at h
          simp only [Option.toList_some, List.mem_singleton] at h
          exact ⟨c, List.mem_cons_self c cs, by rw [hp, h]⟩
      · obtain ⟨c', hc', hp'⟩ := ih h
        exact ⟨c', List.mem_cons_of_mem c hc', hp'⟩
    · rw [he] at h
      simp only at h
      rcases hp : (f c).panel with _ | q
      · rw [hp] at h; simp at h
      · rw [hp] at h
        simp only [Option.toList_some, List.mem_singleton] at h
        exact ⟨c, List.mem_cons_self c cs, by rw [hp, h]⟩

theorem runCells_ok {f : α → CellOut} {g : α → Panel} {cs : List α}
    (h : ∀ c ∈ cs, (f c).err = none ∧ (f c).panel = some (g c)) :
    (runCells f cs).2.1 = cs.map g ∧ (runCells f cs).2.2 = none := by
  induction cs with
  | nil => simp [runCells]
  | cons c cs ih =>
    have hc := h c (List.mem_cons_self c cs)
    have ihx := ih (fun c' hc' => h c' (List.mem_cons_of_mem c hc'))
    simp only [runCells, hc.1, hc.2, Option.toList_some, List.map_cons]
    exact ⟨by rw [ihx.1]; rfl, ihx.2⟩

theorem subplotsShape_pos {r c : Nat} (hr : r ≠ 0) (hc : c ≠ 0) :
    ∃ s, subplotsShape r c = .ok s := by
  unfold subplotsShape
  rw [if_neg hr, if_neg hc]
  by_cases h1 : r = 1 ∧ c = 1
  · exact ⟨_, by rw [if_pos h1]⟩
  · rw [if_neg h1]
    by_cases h2 : r = 1
    · exact ⟨_, by rw [if_pos h2]⟩
    · rw [if_neg h2]
      by_cases h3 : c = 1
      · exact ⟨_, by rw [if_pos h3]⟩
      · exact ⟨_, by rw [if_neg h3]⟩

theorem subplotsShape_grid {r c : Nat} (hr : 2 ≤ r) (hc : 2 ≤ c) :
    subplotsShape r c = .ok (.grid r c) := by
  unfold subplotsShape
  rw [if_neg (by omega), if_neg (by omega), if_neg (by omega),
    if_neg (by omega), if_neg (by omega)]

theorem subplotsShape_line {n : Nat} (hn : 2 ≤ n) :
    subplotsShape 1 n = .ok (.line n) := by
  unfold subplotsShape
  rw [if_neg (by omega), if_neg (by omega), if_neg (by omega), if_pos rfl]

theorem subplotsShape_one_one : subplotsShape 1 1 = .ok .scalar := rfl

theorem index1D_line_ok {n i : Nat} (h : i < n) :
    index1D (.line n) i = .ok () := by
  simp [index1D, h]

theorem index2D_grid_ok {r c i j : Nat} (hi : i < r) (hj : j < c) :
    index2D (.grid r c) i j = .ok () := by
  simp [index2D, hi, hj]

theorem index2Dtuple_grid_ok {r c i j : Nat} (hi : i < r) (hj : j < c) :
    index2Dtuple (.grid r c) i j = .ok () := by
  simp [index2Dtuple, hi, hj]

theorem countCell_panel_props {df : List Row} {pal : Option String} {alpha : ℚ}
    {shape : AxShape} {c : Nat × String} {p : Panel}
    (h : (countCell df pal alpha shape c).panel = some p) :
    p.row = 0 ∧ p.col = c.1 ∧ p.title = c.2 ++ " Count" ∧ p.xlabel = c.2 ∧
    p.ylabel = "Count" ∧ p.draws.map DrawnPlot.x = [some c.2] := by
  simp only [countCell] at h
  rcases hix : index1D shape c.1 with e | u
  · rw [hix] at h; simp at h
  · rw [hix] at h
    simp only [Option.some.injEq] at h
    subst h
    simp [basePanel]

theorem countCell_ok {df : List Row} {pal : Option String} {alpha : ℚ}
    {n : Nat} {c : Nat × String} (h : c.1 < n) :
    (countCell df pal alpha (.line n) c).err = none ∧
    ∃ p, (countCell df pal alpha (.line n) c).panel = some p := by
  simp only [countCell, index1D_line_ok h]
  exact ⟨trivial, _, rfl⟩

theorem propCell_panel_props {df : List Row} {pal : Option String}
    {shape : AxShape} {c : Nat × String} {p : Panel}
    (h : (propCell df pal shape c).panel = some p) :
    p.row = 0 ∧ p.col = c.1 ∧ p.title = "Proportion of " ++ c.2 ∧
    p.xlabel = c.2 ∧ p.ylabel = "Proportion (%)" ∧ p.ylim = some (0, 100) ∧
    p.bars = (enumFrom 0 (sortIndex
        ((valueCounts (colValuesDropna df c.2)).map (fun q => (q.1, q.2 * 100))))).map
      (fun q => { label := q.2.1, x := (q.1 : ℚ) - 2/5, width := 4/5,
                  height := q.2.2 : Bar }) ∧
    p.notes = p.bars.map
      (fun b => { x := b.x + b.width / 2, y := b.height + 1,
                  txt := pyFormat2 b.height ++ "%" : TextNote }) := by
  simp only [propCell] at h
  rcases hix : index1D shape c.1 with e | u
  · rw [hix] at h; simp at h
  · rw [hix] at h
    simp only [Option.some.injEq] at h
    subst h
    simp [basePanel]

theorem propCell_ok {df : List Row} {pal : Option String}
    {n : Nat} {c : Nat × String} (h : c.1 < n) :
    (propCell df pal (.line n) c).err = none ∧
    ∃ p, (propCell df pal (.line n) c).panel = some p := by
  simp only [propCell, index1D_line_ok h]
  exact ⟨trivial, _, rfl⟩

theorem cvnCell_panel_props {df : List Row} {pt : String} {pal : Option String}
    {shape : AxShape} {c : (Nat × String) × (Nat × String)} {p : Panel}
    (h : (cvnCell df pt pal shape c).panel = some p) :
    p.row = c.1.1 ∧ p.col = c.2.1 ∧
    p.title = (if c.1.1 = 0 then c.2.2 else "") ∧
    p.xlabel = "" ∧ p.ylabel = "" ∧
    ∀ d ∈ p.draws,
      d.x = some "species" ∧ d.y = some c.2.2 ∧ d.hue = some c.1.2 ∧
      ((pt = "violin" ∧ d.kind = .violin ∧
          d.split = (if c.1.1 = 2 then true else false)) ∨
        (pt = "box" ∧ d.kind = .box ∧ d.split = false)) := by
  simp only [cvnCell] at h
  by_cases h1 : pt = "violin"
  · rw [if_pos h1] at h
    rcases hix : index2Dtuple shape c.1.1 c.2.1 with e | u
    · rw [hix] at h; simp at h
    · rw [hix] at h
      simp only [Option.some.injEq] at h
      subst h
      refine ⟨rfl, rfl, ?_, rfl, rfl, ?_⟩
      · by_cases h0 : c.1.1 = 0 <;> simp [basePanel, setText, h0]
      · intro d hd
        simp only [List.mem_singleton] at hd
        subst hd
        exact ⟨rfl, rfl, rfl, Or.inl ⟨h1, rfl, rfl⟩⟩
  · rw [if_neg h1] at h
    by_cases h2 : pt = "box"
    · rw [if_pos h2] at h
      rcases hix : index2D shape c.1.1 c.2.1 with e | u
      · rw [hix] at h; simp at h
      · rw [hix] at h
        simp only [Option.some.injEq] at h
        subst h
        refine ⟨rfl, rfl, ?_, rfl, rfl, ?_⟩
        · by_cases h0 : c.1.1 = 0 <;> simp [basePanel, setText, h0]
        · intro d hd
          simp only [List.mem_singleton] at hd
          subst hd
          exact ⟨rfl, rfl, rfl, Or.inr ⟨h2, rfl, rfl⟩⟩
    · rw [if_neg h2] at h
      simp at h

theorem histCell_panel_props {df : List Row} {stats : StatsTable}
    {pal : Option String} {bins : Nat} {alpha : ℚ} {color : String}
    {kde : Bool} {shape : AxShape} {c : Nat × String} {p : Panel}
    (h : (histCell df stats pal bins alpha color kde shape c).panel = some p) :
    p.row = 0 ∧ p.col = c.1 ∧ p.legend = true ∧ kde = true ∧
    (stats.loc "25%" c.2).isSome ∧ (stats.loc "75%" c.2).isSome ∧
    (stats.loc "mean" c.2).isSome ∧
    p.vlines =
      [ { x := (stats.loc "25%" c.2).getD 0, color := "#f26a02",
          linestyle := "dashed", linewidth := 5/2, label := "Q1" },
        { x := (stats.loc "75%" c.2).getD 0, color := "#bd00b0",
          linestyle := "dashed", linewidth := 5/2, label := "Q3" },
        { x := (stats.loc "mean" c.2).getD 0, color := "#f75c6b",
          linestyle := "dashed", linewidth := 5/2, label := "Mean" } ] ∧
    p.draws.map DrawnPlot.x = [some c.2] := by
  simp only [histCell] at h
  rcases hix : index1D shape c.1 with e | u
  · rw [hix] at h; simp at h
  · rw [hix] at h
    by_cases hkv : kde = true ∧ 2 ≤ (colNumDropna df c.2).dedup.length
    · rw [if_pos hkv] at h
      rcases h1 : stats.loc "25%" c.2 with _ | q1
      · rw [h1] at h; simp at h
      · rw [h1] at h
        rcases h2 : stats.loc "75%" c.2 with _ | q3
        · rw [h2] at h; simp at h
        · rw [h2] at h
          rcases h3 : stats.loc "mean" c.2 with _ | m
          · rw [h3] at h; simp at h
          · rw [h3] at h
            simp only [Option.some.injEq] at h
            subst h
            refine ⟨rfl, rfl, rfl, hkv.1, by simp, by simp, by simp, ?_, rfl⟩
            simp [basePanel]
    · rw [if_neg hkv] at h
      simp at h

theorem histCell_ok {df : List Row} {stats : StatsTable} {pal : Option String}
    {bins : Nat} {alpha : ℚ} {color : String} {n : Nat} {c : Nat × String}
    (h : c.1 < n) (hvar : 2 ≤ (colNumDropna df c.2).dedup.length)
    (h1 : (stats.loc "25%" c.2).isSome)
    (h2 : (stats.loc "75%" c.2).isSome) (h3 : (stats.loc "mean" c.2).isSome) :
    (histCell df stats pal bins alpha color true (.line n) c).err = none ∧
    ∃ p, (histCell df stats pal bins alpha color true (.line n) c).panel = some p := by
  simp only [histCell, index1D_line_ok h]
  rw [if_pos ⟨by trivial, hvar⟩]
  rcases hq1 : stats.loc "25%" c.2 with _ | q1
  · rw [hq1] at h1; simp at h1
  · rcases hq2 : stats.loc "75%" c.2 with _ | q3
    · rw [hq2] at h2; simp at h2
    · rcases hq3 : stats.loc "mean" c.2 with _ | m
      · rw [hq3] at h3; simp at h3
      · simp [hq1, hq2, hq3]

theorem distCell_panel_props {df : List Row} {pal : Option String}
    {shape : AxShape} {c : (Nat × String) × (Nat × String)} {p : Panel}
    (h : (distCell df pal shape c).panel = some p) :
    p.row = c.1.1 ∧ p.col = c.2.1 ∧
    p.title = (if c.1.1 = 0 then c.2.2 else "") ∧
    p.xlabel = "" ∧ p.ylabel = "" ∧
    ∀ d ∈ p.draws,
      d.kind = .hist ∧ d.bins = some 40 ∧ d.multiple = some "dodge" ∧
      d.kde = true ∧ d.x = some c.2.2 ∧ d.hue = some c.1.2 := by
  simp only [distCell] at h
  rcases hix : index2D shape c.1.1 c.2.1 with e | u
  · rw [hix] at h; simp at h
  · rw [hix] at h
    simp only [Option.some.injEq] at h
    subst h
    refine ⟨rfl, rfl, ?_, rfl, rfl, ?_⟩
    · by_cases h0 : c.1.1 = 0 <;> simp [basePanel, setText, h0]
    · intro d hd
      simp only [List.mem_singleton] at hd
      subst hd
      exact ⟨rfl, rfl, rfl, rfl, rfl, rfl⟩

theorem specieCell_panel_props {sd : List Row} {pal : Option String}
    {bins : Nat} {shape : AxShape} {c : (Nat × String) × (Nat × String)}
    {p : Panel} (h : (specieCell sd pal bins shape c).panel = some p) :
    p.row = c.1.1 ∧ p.col = c.2.1 ∧ p.title = "" ∧ p.xlabel = "" ∧
    p.ylabel = (if c.2.1 = 0 then c.1.2 else "") ∧
    ∀ d ∈ p.draws,
      d.kind = .hist ∧ d.data = sd ∧ d.x = some c.1.2 ∧ d.hue = some c.2.2 ∧
      d.multiple = some "layer" ∧ d.bins = some bins ∧ d.kde = true := by
  simp only [specieCell] at h
  rcases hix : index2D shape c.1.1 c.2.1 with e | u
  · rw [hix] at h; simp at h
  · rw [hix] at h
    simp only [Option.some.injEq] at h
    subst h
    refine ⟨rfl, rfl, by simp [basePanel], rfl, ?_, ?_⟩
    · by_cases h0 : c.2.1 = 0 <;> simp [basePanel, setText, h0]
    · intro d hd
      simp only [List.mem_singleton] at hd
      subst hd
      exact ⟨rfl, rfl, rfl, rfl, rfl, rfl, rfl⟩

theorem cellGrid_ok_cvn {df : List Row} {pt : String} {pal : Option String}
    {r c : Nat} {cell : (Nat × String) × (Nat × String)}
    (hpt : pt = "violin" ∨ pt = "box")
    (hi : cell.1.1 < r) (hj : cell.2.1 < c) :
    (cvnCell df pt pal (.grid r c) cell).err = none ∧
    ∃ p, (cvnCell df pt pal (.grid r c) cell).panel = some p := by
  rcases hpt with hpt | hpt <;> subst hpt <;>
    simp [cvnCell, index2D_grid_ok hi hj, index2Dtuple_grid_ok hi hj]

theorem cellGrid_ok_dist {df : List Row} {pal : Option String}
    {r c : Nat} {cell : (Nat × String) × (Nat × String)}
    (hi : cell.1.1 < r) (hj : cell.2.1 < c) :
    (distCell df pal (.grid r c) cell).err = none ∧
    ∃ p, (distCell df pal (.grid r c) cell).panel = some p := by
  simp [distCell, index2D_grid_ok hi hj]

theorem cellGrid_ok_specie {sd : List Row} {pal : Option String} {bins : Nat}
    {r c : Nat} {cell : (Nat × String) × (Nat × String)}
    (hi : cell.1.1 < r) (hj : cell.2.1 < c) :
    (specieCell sd pal bins (.grid r c) cell).err = none ∧
    ∃ p, (specieCell sd pal bins (.grid r c) cell).panel = some p := by
  simp [specieCell, index2D_grid_ok hi hj]

theorem option_eq_some_getD {o : Option α} (h : o.isSome) (d : α) :
    o = some (o.getD d) := by
  cases o with
  | none => simp at h
  | some a => rfl

theorem runCells_all_ok {f : α → CellOut} {cs : List α}
    (h : ∀ c ∈ cs, (f c).err = none ∧ ((f c).panel).isSome) :
    (runCells f cs).2.1 =
      cs.map (fun c => ((f c).panel).getD (basePanel 0 0)) ∧
    (runCells f cs).2.2 = none :=
  runCells_ok (fun c hc =>
    ⟨(h c hc).1, option_eq_some_getD (h c hc).2 (basePanel 0 0)⟩)

theorem mem_of_mem_enumFrom {l : List α} {n : Nat} {p : Nat × α}
    (h : p ∈ enumFrom n l) : p.2 ∈ l := by
  induction l generalizing n with
  | nil => simp [enumFrom] at h
  | cons a as ih =>
    simp only [enumFrom, List.mem_cons] at h
    rcases h with h | h
    · subst h; exact List.mem_cons_self a as
    · exact List.mem_cons_of_mem a (ih h)

theorem enumFrom_map_comp (n : Nat) (l : List α) (g : α → β) :
    (enumFrom n l).map (fun q => g q.2) = l.map g := by
  have h1 : (fun q : Nat × α => g q.2) = g ∘ Prod.snd := rfl
  rw [h1, ← List.map_map, enumFrom_map_snd]

theorem enumFrom_getElem {l : List α} (n : Nat) {k : Nat} (h2 : k < l.length) :
    (enumFrom n l).get ⟨k, by rw [enumFrom_length]; exact h2⟩ =
      (n + k, l.get ⟨k, h2⟩) := by
  induction l generalizing n k with
  | nil => simp at h2
  | cons a as ih =>
    cases k with
    | zero => simp [enumFrom]
    | succ k =>
      have h3 : k < as.length := by simpa using h2
      have := ih (n + 1) h3
      simp only [enumFrom, List.get] at this ⊢
      rw [this]
      have h4 : n + 1 + k = n + (k + 1) := by omega
      rw [h4]


theorem sortIndex_perm (l : List (String × ℚ)) : (sortIndex l).Perm l :=
  List.perm_insertionSort labelLe l

theorem sortIndex_sorted (l : List (String × ℚ)) :
    List.Sorted labelLe (sortIndex l) :=
  List.sorted_insertionSort labelLe l

theorem valueCounts_perm (vals : List String) :
    (valueCounts vals).Perm
      (vals.dedup.map (fun v => (v, (vals.count v : ℚ) / (vals.length : ℚ)))) :=
  List.perm_insertionSort countGe _

theorem propPipeline_labels_perm (vals : List String) :
    ((sortIndex ((valueCounts vals).map
        (fun q => (q.1, q.2 * 100)))).map Prod.fst).Perm vals.dedup := by
  have h1 := (sortIndex_perm ((valueCounts vals).map
    (fun q => (q.1, q.2 * 100)))).map Prod.fst
  have h2 : ((valueCounts vals).map (fun q => (q.1, q.2 * 100))).map Prod.fst =
      (valueCounts vals).map Prod.fst := by
    rw [List.map_map]
    rfl
  have h3 := (valueCounts_perm vals).map Prod.fst
  have h4 : ((vals.dedup.map (fun v =>
      (v, (vals.count v : ℚ) / (vals.length : ℚ)))).map Prod.fst) = vals.dedup := by
    rw [List.map_map]
    exact List.map_id vals.dedup
  rw [h2] at h1
  rw [h4] at h3
  exact h1.trans h3

theorem propPipeline_mem_height {vals : List String} {v : String} {h : ℚ}
    (hm : (v, h) ∈ sortIndex ((valueCounts vals).map
      (fun q => (q.1, q.2 * 100)))) :
    h = (vals.count v : ℚ) / (vals.length : ℚ) * 100 := by
  have hm1 : (v, h) ∈ (valueCounts vals).map (fun q => (q.1, q.2 * 100)) :=
    (sortIndex_perm _).mem_iff.mp hm
  rw [List.mem_map] at hm1
  obtain ⟨q, hq, hq2⟩ := hm1
  have hm2 : q ∈ vals.dedup.map
      (fun v => (v, (vals.count v : ℚ) / (vals.length : ℚ))) :=
    (valueCounts_perm vals).mem_iff.mp hq
  rw [List.mem_map] at hm2
  obtain ⟨w, _, hw2⟩ := hm2
  have e1 : q.1 = v := congrArg Prod.fst hq2
  have e2 : q.2 * 100 = h := congrArg Prod.snd hq2
  have e3 : w = q.1 := congrArg Prod.fst hw2
  have e4 : (vals.count w : ℚ) / (vals.length : ℚ) = q.2 := congrArg Prod.snd hw2
  rw [← e2, ← e4, e3, e1]

theorem propPipeline_sum {vals : List String} (hne : vals ≠ []) :
    ((sortIndex ((valueCounts vals).map
      (fun q => (q.1, q.2 * 100)))).map Prod.snd).sum = 100 := by
  have h1 := ((sortIndex_perm ((valueCounts vals).map
    (fun q => (q.1, q.2 * 100)))).map Prod.snd).sum_eq
  rw [h1, List.map_map]
  have h2 : (Prod.snd ∘ fun q : String × ℚ => (q.1, q.2 * 100)) =
      fun q : String × ℚ => q.2 * 100 := rfl
  rw [h2, List.sum_map_mul_right]
  have h3 := ((valueCounts_perm vals).map Prod.snd).sum_eq
  rw [h3, List.map_map]
  have h4 : (Prod.snd ∘ fun v =>
      (v, (vals.count v : ℚ) / (vals.length : ℚ))) =
      fun v => (vals.count v : ℚ) / (vals.length : ℚ) := rfl
  rw [h4]
  have h5 : (fun v => (vals.count v : ℚ) / (vals.length : ℚ)) =
      fun v => (vals.count v : ℚ) * ((vals.length : ℚ))⁻¹ := by
    funext v
    rw [div_eq_mul_inv]
  rw [h5, List.sum_map_mul_right]
  have h6 : (vals.dedup.map (fun v => ((vals.count v : ℕ) : ℚ))).sum =
      ((vals.dedup.map (fun v => vals.count v)).sum : ℚ) := by
    rw [Nat.cast_list_sum, List.map_map]
    rfl
  rw [h6, List.sum_map_count_dedup_eq_length]
  have h7 : (vals.length : ℚ) ≠ 0 := by
    have := List.length_pos.mpr hne
    exact_mod_cast Nat.pos_iff_ne_zero.mp this
  rw [mul_inv_cancel₀ h7, one_mul]

theorem filterMap_length_all_some {l : List α} {f : α → Option β}
    (h : ∀ a ∈ l, (f a).isSome) : (l.filterMap f).length = l.length := by
  induction l with
  | nil => rfl
  | cons a as ih =>
    have ha := h a (List.mem_cons_self a as)
    rcases hfa : f a with _ | b
    · rw [hfa] at ha; simp at ha
    · rw [List.filterMap_cons, hfa]
      simp only [List.length_cons]
      rw [ih (fun a' ha' => h a' (List.mem_cons_of_mem a ha'))]

theorem colValuesDropna_length {df : List Row} {c : String}
    (h : ∀ r ∈ df, (r.cat.lookup c).isSome) :
    (colValuesDropna df c).length = df.length :=
  filterMap_length_all_some h

theorem plot_category_proportions_eq (df : List Row) (cats : List String)
    (pal : Option String) (h : cats ≠ []) :
    plot_category_proportions df cats pal =
      { events := .figure 1 cats.length ::
          (runCells (propCell df pal (.line cats.length)) (enumFrom 0 cats)).1,
        panels :=
          (runCells (propCell df pal (.line cats.length)) (enumFrom 0 cats)).2.1,
        suptitle := none,
        err :=
          (runCells (propCell df pal (.line cats.length)) (enumFrom 0 cats)).2.2 } := by
  rcases cats with _ | ⟨a, as⟩
  · exact absurd rfl h
  · rcases as with _ | ⟨b, bs⟩
    · rfl
    · have hn : 2 ≤ (a :: b :: bs).length := by simp
      have hne : (a :: b :: bs).length ≠ 1 := by simp
      simp only [plot_category_proportions, subplotsShape_line hn, if_neg hne]

theorem plot_category_count_eq (df : List Row) (cats : List String)
    (pal : Option String) (alpha : ℚ) (h : 2 ≤ cats.length) :
    plot_category_count df cats pal alpha =
      { events := .figure 1 cats.length ::
          (runCells (countCell df pal alpha (.line cats.length)) (enumFrom 0 cats)).1,
        panels :=
          (runCells (countCell df pal alpha (.line cats.length)) (enumFrom 0 cats)).2.1,
        suptitle := none,
        err :=
          (runCells (countCell df pal alpha (.line cats.length)) (enumFrom 0 cats)).2.2 } := by
  simp only [plot_category_count, subplotsShape_line h]

theorem plot_histograms_eq (df : List Row) (stats : StatsTable)
    (pal : Option String) (bins : Nat) (alpha : ℚ) (color : String)
    (kde : Bool) (h : 2 ≤ stats.columns.length) :
    plot_histograms df stats pal bins alpha color kde =
      { events := .figure 1 stats.columns.length ::
          (runCells (histCell df stats pal bins alpha color kde
            (.line stats.columns.length)) (enumFrom 0 stats.columns)).1,
        panels :=
          (runCells (histCell df stats pal bins alpha color kde
            (.line stats.columns.length)) (enumFrom 0 stats.columns)).2.1,
        suptitle := none,
        err :=
          (runCells (histCell df stats pal bins alpha color kde
            (.line stats.columns.length)) (enumFrom 0 stats.columns)).2.2 } := by
  simp only [plot_histograms, subplotsShape_line h]

theorem plot_cvn_eq (df : List Row) (cats nums : List String) (pt : String)
    (pal : Option String) (hr : 2 ≤ cats.length) (hc : 2 ≤ nums.length) :
    plot_categorical_vs_numeric df cats nums pt pal =
      { events := .figure cats.length nums.length ::
          (runCells (cvnCell df pt pal (.grid cats.length nums.length))
            (gridCells cats nums)).1,
        panels :=
          (runCells (cvnCell df pt pal (.grid cats.length nums.length))
            (gridCells cats nums)).2.1,
        suptitle := none,
        err :=
          (runCells (cvnCell df pt pal (.grid cats.length nums.length))
            (gridCells cats nums)).2.2 } := by
  simp only [plot_categorical_vs_numeric, subplotsShape_grid hr hc]

theorem plot_dist_eq (df : List Row) (cats nums : List String)
    (pal : Option String) (hr : 2 ≤ cats.length) (hc : 2 ≤ nums.length) :
    plot_distributions df cats nums pal =
      { events := .figure cats.length nums.length ::
          (runCells (distCell df pal (.grid cats.length nums.length))
            (gridCells cats nums)).1,
        panels :=
          (runCells (distCell df pal (.grid cats.length nums.length))
            (gridCells cats nums)).2.1,
        suptitle := none,
        err :=
          (runCells (distCell df pal (.grid cats.length nums.length))
            (gridCells cats nums)).2.2 } := by
  simp only [plot_distributions, subplotsShape_grid hr hc]

theorem plot_specie_eq (df : List Row) (nums cats : List String) (sp : String)
    (pal : Option String) (bins : Nat) (hr : 2 ≤ nums.length)
    (hc : 2 ≤ cats.length) :
    plot_distribution_specie df nums cats sp pal bins =
      { events := .figure nums.length cats.length ::
          (runCells (specieCell (speciesFilter df sp) pal bins
            (.grid nums.length cats.length)) (gridCells nums cats)).1,
        panels :=
          (runCells (specieCell (speciesFilter df sp) pal bins
            (.grid nums.length cats.length)) (gridCells nums cats)).2.1,
        suptitle := some (sp ++ " Species"),
        err :=
          (runCells (specieCell (speciesFilter df sp) pal bins
            (.grid nums.length cats.length)) (gridCells nums cats)).2.2 } := by
  simp only [plot_distribution_specie, subplotsShape_grid hr hc]

theorem prop_panels_mem {df : List Row} {cats : List String}
    {pal : Option String} {p : Panel}
    (h : p ∈ (plot_category_proportions df cats pal).panels) :
    ∃ shape, ∃ c ∈ enumFrom 0 cats, (propCell df pal shape c).panel = some p := by
  simp only [plot_category_proportions] at h
  rcases hs : subplotsShape 1 cats.length with e | s
  · rw [hs] at h; simp at h
  · rw [hs] at h
    simp only at h
    obtain ⟨c, hc, hp⟩ := runCells_panels_mem h
    exact ⟨_, c, hc, hp⟩

theorem cvn_panels_mem {df : List Row} {cats nums : List String} {pt : String}
    {pal : Option String} {p : Panel}
    (h : p ∈ (plot_categorical_vs_numeric df cats nums pt pal).panels) :
    ∃ shape, ∃ c ∈ gridCells cats nums, (cvnCell df pt pal shape c).panel = some p := by
  simp only [plot_categorical_vs_numeric] at h
  rcases hs : subplotsShape cats.length nums.length with e | s
  · rw [hs] at h; simp at h
  · rw [hs] at h
    simp only at h
    obtain ⟨c, hc, hp⟩ := runCells_panels_mem h
    exact ⟨_, c, hc, hp⟩

theorem dist_panels_mem {df : List Row} {cats nums : List String}
    {pal : Option String} {p : Panel}
    (h : p ∈ (plot_distributions df cats nums pal).panels) :
    ∃ shape, ∃ c ∈ gridCells cats nums, (distCell df pal shape c).panel = some p := by
  simp only [plot_distributions] at h
  rcases hs : subplotsShape cats.length nums.length with e | s
  · rw [hs] at h; simp at h
  · rw [hs] at h
    simp only at h
    obtain ⟨c, hc, hp⟩ := runCells_panels_mem h
    exact ⟨_, c, hc, hp⟩

theorem hist_panels_mem {df : List Row} {stats : StatsTable}
    {pal : Option String} {bins : Nat} {alpha : ℚ} {color : String}
    {kde : Bool} {p : Panel}
    (h : p ∈ (plot_histograms df stats pal bins alpha color kde).panels) :
    ∃ shape, ∃ c ∈ enumFrom 0 stats.columns,
      (histCell df stats pal bins alpha color kde shape c).panel = some p := by
  simp only [plot_histograms] at h
  rcases hs : subplotsShape 1 stats.columns.length with e | s
  · rw [hs] at h; simp at h
  · rw [hs] at h
    simp only at h
    obtain ⟨c, hc, hp⟩ := runCells_panels_mem h
    exact ⟨_, c, hc, hp⟩

theorem histCell_drawCols (df : List Row) (stats : StatsTable)
    (pal : Option String) (bins : Nat) (alpha : ℚ) (color : String)
    (kde : Bool) (shape : AxShape) (c : Nat × String) :
    drawCols (histCell df stats pal bins alpha color kde shape c).evs = [] ∨
    drawCols (histCell df stats pal bins alpha color kde shape c).evs = [c.2] := by
  simp only [histCell]
  rcases hix : index1D shape c.1 with e | u
  · left; rfl
  · right
    by_cases hkv : kde = true ∧ 2 ≤ (colNumDropna df c.2).dedup.length
    · rw [if_pos hkv]
      rcases h1 : stats.loc "25%" c.2 with _ | q1
      · simp [drawCols]
      · rcases h2 : stats.loc "75%" c.2 with _ | q3
        · simp [drawCols]
        · rcases h3 : stats.loc "mean" c.2 with _ | m
          · simp [drawCols]
          · simp [drawCols]
    · rw [if_neg hkv]
      simp [drawCols]

theorem histCell_drawCols_of_ok {df : List Row} {stats : StatsTable}
    {pal : Option String} {bins : Nat} {alpha : ℚ} {color : String}
    {kde : Bool} {shape : AxShape} {c : Nat × String}
    (h : (histCell df stats pal bins alpha color kde shape c).err = none) :
    drawCols (histCell df stats pal bins alpha color kde shape c).evs = [c.2] := by
  simp only [histCell] at h ⊢
  rcases hix : index1D shape c.1 with e | u
  · rw [hix] at h; simp at h
  · rw [hix] at h
    by_cases hkv : kde = true ∧ 2 ≤ (colNumDropna df c.2).dedup.length
    · rw [if_pos hkv] at h
      rw [if_pos hkv]
      rcases h1 : stats.loc "25%" c.2 with _ | q1
      · rw [h1] at h; simp at h
      · rw [h1] at h
        rcases h2 : stats.loc "75%" c.2 with _ | q3
        · rw [h2] at h; simp at h
        · rw [h2] at h
          rcases h3 : stats.loc "mean" c.2 with _ | m
          · rw [h3] at h; simp at h
          · simp [drawCols]
    · rw [if_neg hkv] at h
      simp at h

theorem drawCols_append (l1 l2 : List Ev) :
    drawCols (l1 ++ l2) = drawCols l1 ++ drawCols l2 :=
  List.filterMap_append l1 l2 _

theorem runCells_hist_drawCols_take (df : List Row) (stats : StatsTable)
    (pal : Option String) (bins : Nat) (alpha : ℚ) (color : String)
    (kde : Bool) (shape : AxShape) (cols : List String) (k0 : Nat) :
    drawCols (runCells (histCell df stats pal bins alpha color kde shape)
        (enumFrom k0 cols)).1 =
      cols.take (drawCols (runCells (histCell df stats pal bins alpha color kde shape)
        (enumFrom k0 cols)).1).length := by
  induction cols generalizing k0 with
  | nil => simp [enumFrom, runCells, drawCols]
  | cons c cs ih =>
    simp only [enumFrom, runCells]
    rcases he : (histCell df stats pal bins alpha color kde shape (k0, c)).err with _ | e
    · simp only
      rw [drawCols_append]
      have hd := histCell_drawCols_of_ok he
      rw [hd]
      simp only [List.cons_append, List.nil_append, List.length_cons,
        List.take_succ_cons, List.cons.injEq, true_and]
      exact ih (k0 + 1)
    · simp only
      rcases histCell_drawCols df stats pal bins alpha color kde shape (k0, c) with hd | hd <;>
        rw [hd] <;> simp

/-- C1 counterexample: with an unrecognized plot type the call does end in
the descriptive ValueError, but the figure and axes grid have already been
allocated when it is raised (the allocation event is in the trace), so the
failure does not happen before any figure is constructed as the claim
states. -/
theorem cvn_bad_plot_type_counterexample :
    (plot_categorical_vs_numeric [] ["sex"] ["bl"] "pie" none).err =
      some "ValueError: plot_type must be either 'violin' or 'box'" ∧
    (plot_categorical_vs_numeric [] ["sex"] ["bl"] "pie" none).events =
      [Ev.figure 1 1] ∧
    (plot_categorical_vs_numeric [] ["sex"] ["bl"] "pie" none).panels = [] := by
  decide

/-- C1 (amended): for plot_type outside violin and box, and nonempty column
selectors, plot_categorical_vs_numeric raises exactly the descriptive
ValueError of the source at the first grid cell: the trace holds only the
figure/axes allocation, no chart is drawn, no panel is configured, and no
other error is raised.  With an empty selector list the plot-type check is
never reached: plt.subplots itself rejects the zero grid dimension with its
own ValueError (rows first, then columns) before any figure exists. -/
theorem cvn_bad_plot_type_fails_fast :
    (∀ (df : List Row) (cats nums : List String) (pt : String)
        (pal : Option String), pt ≠ "violin" → pt ≠ "box" →
      cats ≠ [] → nums ≠ [] →
      (plot_categorical_vs_numeric df cats nums pt pal).err =
        some "ValueError: plot_type must be either 'violin' or 'box'" ∧
      (plot_categorical_vs_numeric df cats nums pt pal).events =
        [Ev.figure cats.length nums.length] ∧
      (plot_categorical_vs_numeric df cats nums pt pal).panels = []) ∧
    (∀ (df : List Row) (nums : List String) (pt : String)
        (pal : Option String),
      (plot_categorical_vs_numeric df [] nums pt pal).err =
        some "ValueError: number of rows must be a positive integer" ∧
      (plot_categorical_vs_numeric df [] nums pt pal).events = [] ∧
      (plot_categorical_vs_numeric df [] nums pt pal).panels = []) ∧
    (∀ (df : List Row) (cats : List String) (pt : String)
        (pal : Option String), cats ≠ [] →
      (plot_categorical_vs_numeric df cats [] pt pal).err =
        some "ValueError: number of columns must be a positive integer" ∧
      (plot_categorical_vs_numeric df cats [] pt pal).events = [] ∧
      (plot_categorical_vs_numeric df cats [] pt pal).panels = []) := by
  refine ⟨?_, ?_, ?_⟩
  · intro df cats nums pt pal h1 h2 h3 h4
    rcases cats with _ | ⟨a, as⟩
    · exact absurd rfl h3
    rcases nums with _ | ⟨b, bs⟩
    · exact absurd rfl h4
    obtain ⟨s, hs⟩ := subplotsShape_pos
      (r := (a :: as).length) (c := (b :: bs).length) (by simp) (by simp)
    have hcell : cvnCell df pt pal s ((0, a), (0, b)) =
        { evs := [], panel := none,
          err := some "ValueError: plot_type must be either 'violin' or 'box'" } := by
      simp only [cvnCell, if_neg h1, if_neg h2]
    have hgrid : gridCells (a :: as) (b :: bs) =
        ((0, a), (0, b)) :: ((enumFrom 1 bs).map (fun q => ((0, a), q)) ++
          (enumFrom 1 as).flatMap
            (fun p => (enumFrom 0 (b :: bs)).map (fun q => (p, q)))) := by
      simp [gridCells, enumFrom]
    simp only [plot_categorical_vs_numeric, hs, hgrid, runCells, hcell]
    simp
  · intro df nums pt pal
    exact ⟨rfl, rfl, rfl⟩
  · intro df cats pt pal h3
    rcases cats with _ | ⟨a, as⟩
    · exact absurd rfl h3
    · exact ⟨rfl, rfl, rfl⟩

/-- C1 witness: the amended theorem applied at a concrete bad plot type, at
an empty category selector and at an empty numeric selector. -/
theorem cvn_bad_plot_type_fails_fast_witness :
    ((plot_categorical_vs_numeric [rowGentoo] ["sex", "island"] ["bl"]
        "scatter" none).err =
      some "ValueError: plot_type must be either 'violin' or 'box'" ∧
     (plot_categorical_vs_numeric [rowGentoo] ["sex", "island"] ["bl"]
        "scatter" none).events = [Ev.figure 2 1] ∧
     (plot_categorical_vs_numeric [rowGentoo] ["sex", "island"] ["bl"]
        "scatter" none).panels = []) ∧
    (plot_categorical_vs_numeric [rowGentoo] [] ["bl"] "violin" none).err =
      some "ValueError: number of rows must be a positive integer" ∧
    (plot_categorical_vs_numeric [rowGentoo] ["sex"] [] "violin" none).err =
      some "ValueError: number of columns must be a positive integer" :=
  ⟨cvn_bad_plot_type_fails_fast.1 [rowGentoo] ["sex", "island"] ["bl"]
      "scatter" none (by decide) (by decide) (by decide) (by decide),
    (cvn_bad_plot_type_fails_fast.2.1 [rowGentoo] ["bl"] "violin" none).1,
    (cvn_bad_plot_type_fails_fast.2.2 [rowGentoo] ["sex"] "violin" none
      (by decide)).1⟩

/-- C5: in plot_categorical_vs_numeric with the violin variant, every chart
drawn into a panel is a violinplot whose split flag is set exactly when the
panel sits in grid row 2 (a positional rule); with the box variant every
chart is a boxplot and split is never set. -/
theorem cvn_violin_split_row2 (df : List Row) (cats nums : List String)
    (pal : Option String) :
    (∀ k, k < (plot_categorical_vs_numeric df cats nums "violin" pal).panels.length →
      ∀ d ∈ ((plot_categorical_vs_numeric df cats nums "violin" pal).panels.getD k
          (basePanel 0 0)).draws,
        d.kind = PlotKind.violin ∧
        (d.split = true ↔
          ((plot_categorical_vs_numeric df cats nums "violin" pal).panels.getD k
            (basePanel 0 0)).row = 2)) ∧
    (∀ k, k < (plot_categorical_vs_numeric df cats nums "box" pal).panels.length →
      ∀ d ∈ ((plot_categorical_vs_numeric df cats nums "box" pal).panels.getD k
          (basePanel 0 0)).draws,
        d.kind = PlotKind.box ∧ d.split = false) := by
  constructor
  · intro k hk d hd
    obtain ⟨shape, c, _, hcell⟩ := cvn_panels_mem (getD_mem hk (basePanel 0 0))
    have props := cvnCell_panel_props hcell
    obtain ⟨hrow, _, _, _, _, hdraws⟩ := props
    obtain ⟨_, _, _, hv⟩ := hdraws d hd
    rcases hv with ⟨_, hkind, hsplit⟩ | ⟨habs, _, _⟩
    · refine ⟨hkind, ?_⟩
      rw [hsplit, hrow]
      by_cases h2 : c.1.1 = 2 <;> simp [h2]
    · exact absurd habs (by decide)
  · intro k hk d hd
    obtain ⟨shape, c, _, hcell⟩ := cvn_panels_mem (getD_mem hk (basePanel 0 0))
    have props := cvnCell_panel_props hcell
    obtain ⟨_, _, _, _, _, hdraws⟩ := props
    obtain ⟨_, _, _, hv⟩ := hdraws d hd
    rcases hv with ⟨habs, _, _⟩ | ⟨_, hkind, hsplit⟩
    · exact absurd habs (by decide)
    · exact ⟨hkind, hsplit⟩

/-- C5 witness: a three-row violin grid has the split flag on in row 2, and
a box grid never has it. -/
theorem cvn_violin_split_row2_witness :
    ((((plot_categorical_vs_numeric [] ["sex", "island", "year"] ["bl", "bm"]
          "violin" none).panels.getD 4 (basePanel 0 0)).draws.headD noDraw).kind
        = PlotKind.violin ∧
      ((((plot_categorical_vs_numeric [] ["sex", "island", "year"] ["bl", "bm"]
          "violin" none).panels.getD 4 (basePanel 0 0)).draws.headD noDraw).split
          = true ↔
        ((plot_categorical_vs_numeric [] ["sex", "island", "year"] ["bl", "bm"]
          "violin" none).panels.getD 4 (basePanel 0 0)).row = 2)) ∧
    ((((plot_categorical_vs_numeric [] ["sex", "island", "year"] ["bl", "bm"]
          "box" none).panels.getD 0 (basePanel 0 0)).draws.headD noDraw).kind
        = PlotKind.box ∧
      (((plot_categorical_vs_numeric [] ["sex", "island", "year"] ["bl", "bm"]
          "box" none).panels.getD 0 (basePanel 0 0)).draws.headD noDraw).split
        = false) :=
  ⟨(cvn_violin_split_row2 [] ["sex", "island", "year"] ["bl", "bm"] none).1 4
      (by decide) _ (by decide),
    (cvn_violin_split_row2 [] ["sex", "island", "year"] ["bl", "bm"] none).2 0
      (by decide) _ (by decide)⟩

/-- C7: in both grid renderers (plot_categorical_vs_numeric for any plot
type, and plot_distributions), every configured panel carries the numeric
column name as its title exactly when it sits in grid row 0 and an empty
title otherwise, and carries no x or y axis label. -/
theorem grid_top_row_titles_only :
    (∀ (df : List Row) (cats nums : List String) (pt : String)
        (pal : Option String) (k : Nat),
      k < (plot_categorical_vs_numeric df cats nums pt pal).panels.length →
      ((plot_categorical_vs_numeric df cats nums pt pal).panels.getD k
          (basePanel 0 0)).title =
        (if ((plot_categorical_vs_numeric df cats nums pt pal).panels.getD k
            (basePanel 0 0)).row = 0 then
          nums.getD ((plot_categorical_vs_numeric df cats nums pt pal).panels.getD k
            (basePanel 0 0)).col "" else "") ∧
      ((plot_categorical_vs_numeric df cats nums pt pal).panels.getD k
          (basePanel 0 0)).xlabel = "" ∧
      ((plot_categorical_vs_numeric df cats nums pt pal).panels.getD k
          (basePanel 0 0)).ylabel = "") ∧
    (∀ (df : List Row) (cats nums : List String) (pal : Option String) (k : Nat),
      k < (plot_distributions df cats nums pal).panels.length →
      ((plot_distributions df cats nums pal).panels.getD k (basePanel 0 0)).title =
        (if ((plot_distributions df cats nums pal).panels.getD k
            (basePanel 0 0)).row = 0 then
          nums.getD ((plot_distributions df cats nums pal).panels.getD k
            (basePanel 0 0)).col "" else "") ∧
      ((plot_distributions df cats nums pal).panels.getD k (basePanel 0 0)).xlabel = "" ∧
      ((plot_distributions df cats nums pal).panels.getD k (basePanel 0 0)).ylabel = "") := by
  constructor
  · intro df cats nums pt pal k hk
    obtain ⟨shape, c, hc, hcell⟩ := cvn_panels_mem (getD_mem hk (basePanel 0 0))
    obtain ⟨hrow, hcol, htitle, hxl, hyl, _⟩ := cvnCell_panel_props hcell
    have hnum := mem_enumFrom_zero (mem_gridCells hc).2
    refine ⟨?_, hxl, hyl⟩
    rw [htitle, hrow, hcol, hnum.2 ""]
  · intro df cats nums pal k hk
    obtain ⟨shape, c, hc, hcell⟩ := dist_panels_mem (getD_mem hk (basePanel 0 0))
    obtain ⟨hrow, hcol, htitle, hxl, hyl, _⟩ := distCell_panel_props hcell
    have hnum := mem_enumFrom_zero (mem_gridCells hc).2
    refine ⟨?_, hxl, hyl⟩
    rw [htitle, hrow, hcol, hnum.2 ""]

/-- C7 witness: the theorem applied to a concrete top-row panel of each grid
renderer. -/
theorem grid_top_row_titles_only_witness :
    (((plot_categorical_vs_numeric [] ["sex", "island"] ["bl", "bm"] "box"
        none).panels.getD 1 (basePanel 0 0)).title =
      (if ((plot_categorical_vs_numeric [] ["sex", "island"] ["bl", "bm"] "box"
          none).panels.getD 1 (basePanel 0 0)).row = 0 then
        ["bl", "bm"].getD ((plot_categorical_vs_numeric [] ["sex", "island"]
          ["bl", "bm"] "box" none).panels.getD 1 (basePanel 0 0)).col ""
      else "") ∧
    ((plot_categorical_vs_numeric [] ["sex", "island"] ["bl", "bm"] "box"
        none).panels.getD 1 (basePanel 0 0)).xlabel = "" ∧
    ((plot_categorical_vs_numeric [] ["sex", "island"] ["bl", "bm"] "box"
        none).panels.getD 1 (basePanel 0 0)).ylabel = "") ∧
    (((plot_distributions [] ["sex", "island"] ["bl", "bm"] none).panels.getD 2
        (basePanel 0 0)).title =
      (if ((plot_distributions [] ["sex", "island"] ["bl", "bm"] none).panels.getD 2
          (basePanel 0 0)).row = 0 then
        ["bl", "bm"].getD ((plot_distributions [] ["sex", "island"] ["bl", "bm"]
          none).panels.getD 2 (basePanel 0 0)).col ""
      else "") ∧
    ((plot_distributions [] ["sex", "island"] ["bl", "bm"] none).panels.getD 2
        (basePanel 0 0)).xlabel = "" ∧
    ((plot_distributions [] ["sex", "island"] ["bl", "bm"] none).panels.getD 2
        (basePanel 0 0)).ylabel = "") :=
  ⟨grid_top_row_titles_only.1 [] ["sex", "island"] ["bl", "bm"] "box" none 1
      (by decide),
    grid_top_row_titles_only.2 [] ["sex", "island"] ["bl", "bm"] none 2
      (by decide)⟩

/-- C8: every chart drawn by plot_distributions is a histogram with exactly
40 bins, side-by-side dodge mode (never stack or layer), and a kde density
overlay, whatever the inputs. -/
theorem distributions_forty_bins_dodge (df : List Row) (cats nums : List String)
    (pal : Option String) (k : Nat)
    (hk : k < (plot_distributions df cats nums pal).panels.length) :
    ∀ d ∈ ((plot_distributions df cats nums pal).panels.getD k (basePanel 0 0)).draws,
      d.kind = PlotKind.hist ∧ d.bins = some 40 ∧ d.multiple = some "dodge" ∧
        d.kde = true := by
  intro d hd
  obtain ⟨shape, c, _, hcell⟩ := dist_panels_mem (getD_mem hk (basePanel 0 0))
  obtain ⟨_, _, _, _, _, hdraws⟩ := distCell_panel_props hcell
  obtain ⟨h1, h2, h3, h4, _, _⟩ := hdraws d hd
  exact ⟨h1, h2, h3, h4⟩

/-- C8 witness: the theorem applied to a concrete panel and drawing. -/
theorem distributions_forty_bins_dodge_witness :
    (((plot_distributions [rowGentoo] ["sex", "island"] ["bl", "bm"]
        none).panels.getD 3 (basePanel 0 0)).draws.headD noDraw).kind =
      PlotKind.hist ∧
    (((plot_distributions [rowGentoo] ["sex", "island"] ["bl", "bm"]
        none).panels.getD 3 (basePanel 0 0)).draws.headD noDraw).bins = some 40 ∧
    (((plot_distributions [rowGentoo] ["sex", "island"] ["bl", "bm"]
        none).panels.getD 3 (basePanel 0 0)).draws.headD noDraw).multiple =
      some "dodge" ∧
    (((plot_distributions [rowGentoo] ["sex", "island"] ["bl", "bm"]
        none).panels.getD 3 (basePanel 0 0)).draws.headD noDraw).kde = true :=
  distributions_forty_bins_dodge [rowGentoo] ["sex", "island"] ["bl", "bm"]
    none 3 (by decide) _ (by decide)

theorem line_renderer_panels_getD {f : Nat × String → CellOut}
    {cols : List String}
    (hall : ∀ c ∈ enumFrom 0 cols, (f c).err = none ∧ ((f c).panel).isSome)
    {k : Nat} (hk : k < cols.length) :
    (runCells f (enumFrom 0 cols)).2.2 = none ∧
    (runCells f (enumFrom 0 cols)).2.1.length = cols.length ∧
    ∃ p, (f (k, cols.getD k "")).panel = some p ∧
      (runCells f (enumFrom 0 cols)).2.1.getD k (basePanel 0 0) = p := by
  have hrun := runCells_all_ok hall
  have hk3 : k < (enumFrom 0 cols).length := by
    rw [enumFrom_length]; exact hk
  refine ⟨hrun.2, ?_, ?_⟩
  · rw [hrun.1, List.length_map, enumFrom_length]
  · have hk2 : k < ((enumFrom 0 cols).map
        (fun c => ((f c).panel).getD (basePanel 0 0))).length := by
      rw [List.length_map, enumFrom_length]; exact hk
    have hcell : (enumFrom 0 cols).get ⟨k, hk3⟩ = (0 + k, cols.get ⟨k, hk⟩) :=
      enumFrom_getElem 0 hk
    have hmem : (enumFrom 0 cols).get ⟨k, hk3⟩ ∈ enumFrom 0 cols :=
      List.get_mem _ _ hk3
    obtain ⟨he, hsome⟩ := hall _ hmem
    refine ⟨((f ((enumFrom 0 cols).get ⟨k, hk3⟩)).panel).getD (basePanel 0 0),
      ?_, ?_⟩
    · have hpair : (k, cols.getD k "") = (enumFrom 0 cols).get ⟨k, hk3⟩ := by
        rw [hcell, Nat.zero_add, List.getD_eq_getElem cols "" hk]
        rfl
      rw [hpair]
      exact option_eq_some_getD hsome _
    · rw [hrun.1, List.getD_eq_getElem _ _ hk2, List.getElem_map]
      rfl

theorem prop_panels_getD (df : List Row) (cats : List String)
    (pal : Option String) (h : cats ≠ []) {k : Nat} (hk : k < cats.length) :
    (plot_category_proportions df cats pal).err = none ∧
    (plot_category_proportions df cats pal).panels.length = cats.length ∧
    ∃ p, (propCell df pal (.line cats.length) (k, cats.getD k "")).panel = some p ∧
      (plot_category_proportions df cats pal).panels.getD k (basePanel 0 0) = p := by
  have hall : ∀ c ∈ enumFrom 0 cats,
      ((propCell df pal (.line cats.length)) c).err = none ∧
      (((propCell df pal (.line cats.length)) c).panel).isSome := by
    intro c hc
    obtain ⟨he, p, hp⟩ := propCell_ok (n := cats.length) (mem_enumFrom_zero hc).1
    exact ⟨he, by rw [hp]; rfl⟩
  have hmain := line_renderer_panels_getD hall hk
  have heq := plot_category_proportions_eq df cats pal h
  refine ⟨?_, ?_, ?_⟩
  · simp only [heq]
    exact hmain.1
  · simp only [heq]
    exact hmain.2.1
  · simp only [heq]
    exact hmain.2.2

theorem count_panels_getD (df : List Row) (cats : List String)
    (pal : Option String) (alpha : ℚ) (h : 2 ≤ cats.length) {k : Nat}
    (hk : k < cats.length) :
    (plot_category_count df cats pal alpha).err = none ∧
    (plot_category_count df cats pal alpha).panels.length = cats.length ∧
    ∃ p, (countCell df pal alpha (.line cats.length) (k, cats.getD k "")).panel = some p ∧
      (plot_category_count df cats pal alpha).panels.getD k (basePanel 0 0) = p := by
  have hall : ∀ c ∈ enumFrom 0 cats,
      ((countCell df pal alpha (.line cats.length)) c).err = none ∧
      (((countCell df pal alpha (.line cats.length)) c).panel).isSome := by
    intro c hc
    obtain ⟨he, p, hp⟩ := countCell_ok (n := cats.length) (mem_enumFrom_zero hc).1
    exact ⟨he, by rw [hp]; rfl⟩
  have hmain := line_renderer_panels_getD hall hk
  have heq := plot_category_count_eq df cats pal alpha h
  refine ⟨?_, ?_, ?_⟩
  · simp only [heq]
    exact hmain.1
  · simp only [heq]
    exact hmain.2.1
  · simp only [heq]
    exact hmain.2.2

theorem hist_panels_getD (df : List Row) (stats : StatsTable)
    (pal : Option String) (bins : Nat) (alpha : ℚ) (color : String)
    (h : 2 ≤ stats.columns.length)
    (hstats : ∀ c ∈ stats.columns, (stats.loc "25%" c).isSome ∧
      (stats.loc "75%" c).isSome ∧ (stats.loc "mean" c).isSome)
    (hvar : ∀ c ∈ stats.columns, 2 ≤ (colNumDropna df c).dedup.length)
    {k : Nat} (hk : k < stats.columns.length) :
    (plot_histograms df stats pal bins alpha color true).err = none ∧
    (plot_histograms df stats pal bins alpha color true).panels.length =
      stats.columns.length ∧
    ∃ p, (histCell df stats pal bins alpha color true (.line stats.columns.length)
        (k, stats.columns.getD k "")).panel = some p ∧
      (plot_histograms df stats pal bins alpha color true).panels.getD k
        (basePanel 0 0) = p := by
  have hall : ∀ c ∈ enumFrom 0 stats.columns,
      ((histCell df stats pal bins alpha color true (.line stats.columns.length)) c).err = none ∧
      (((histCell df stats pal bins alpha color true (.line stats.columns.length)) c).panel).isSome := by
    intro c hc
    have hcmem : c.2 ∈ stats.columns := mem_of_mem_enumFrom hc
    obtain ⟨h1, h2, h3⟩ := hstats c.2 hcmem
    obtain ⟨he, p, hp⟩ := histCell_ok (n := stats.columns.length)
      (mem_enumFrom_zero hc).1 (hvar c.2 hcmem) h1 h2 h3
    exact ⟨he, by rw [hp]; rfl⟩
  have hmain := line_renderer_panels_getD hall hk
  have heq := plot_histograms_eq df stats pal bins alpha color true h
  refine ⟨?_, ?_, ?_⟩
  · simp only [heq]
    exact hmain.1
  · simp only [heq]
    exact hmain.2.1
  · simp only [heq]
    exact hmain.2.2

/-- C2 counterexample: plot_category_count with a one-element selector list
does not draw one panel; it raises a TypeError (the squeezed scalar axes is
not subscriptable, since unlike plot_category_proportions it is never
wrapped into a one-element list) and configures no panel. -/
theorem single_row_singleton_counterexample :
    (plot_category_count [] ["species"] none 1).err =
      some "TypeError: Axes object is not subscriptable" ∧
    (plot_category_count [] ["species"] none 1).panels = [] ∧
    (plot_category_proportions [] ["species"] none).err = none ∧
    (plot_category_proportions [] ["species"] none).panels.length = 1 := by
  decide

/-- C2 (amended): panel count and panel-to-selector correspondence are
positional for all three single-row renderers, but the one-element special
case holds only for plot_category_proportions (whose source wraps the scalar
axes in a list): it succeeds for every nonempty selector, while
plot_category_count needs at least two columns and plot_histograms at least
two statistics columns, each with the three statistics present and at least
two distinct non-missing dataframe values (so the kde line that the source
recolors via lines[0] exists), and both fail with a TypeError on a
one-element selector. -/
theorem single_row_renderers_positional_amended :
    (∀ (df : List Row) (cats : List String) (pal : Option String),
      cats ≠ [] →
      (plot_category_proportions df cats pal).err = none ∧
      (plot_category_proportions df cats pal).panels.length = cats.length ∧
      ∀ k, k < cats.length →
        ((plot_category_proportions df cats pal).panels.getD k (basePanel 0 0)).col = k ∧
        ((plot_category_proportions df cats pal).panels.getD k (basePanel 0 0)).xlabel =
          cats.getD k "" ∧
        ((plot_category_proportions df cats pal).panels.getD k (basePanel 0 0)).title =
          "Proportion of " ++ cats.getD k "") ∧
    (∀ (df : List Row) (cats : List String) (pal : Option String) (alpha : ℚ),
      2 ≤ cats.length →
      (plot_category_count df cats pal alpha).err = none ∧
      (plot_category_count df cats pal alpha).panels.length = cats.length ∧
      ∀ k, k < cats.length →
        ((plot_category_count df cats pal alpha).panels.getD k (basePanel 0 0)).col = k ∧
        (((plot_category_count df cats pal alpha).panels.getD k
            (basePanel 0 0)).draws.map DrawnPlot.x) = [some (cats.getD k "")] ∧
        ((plot_category_count df cats pal alpha).panels.getD k (basePanel 0 0)).title =
          cats.getD k "" ++ " Count") ∧
    (∀ (df : List Row) (stats : StatsTable) (pal : Option String) (bins : Nat)
        (alpha : ℚ) (color : String),
      2 ≤ stats.columns.length →
      (∀ c ∈ stats.columns, (stats.loc "25%" c).isSome ∧
        (stats.loc "75%" c).isSome ∧ (stats.loc "mean" c).isSome) →
      (∀ c ∈ stats.columns, 2 ≤ (colNumDropna df c).dedup.length) →
      (plot_histograms df stats pal bins alpha color true).err = none ∧
      (plot_histograms df stats pal bins alpha color true).panels.length =
        stats.columns.length ∧
      ∀ k, k < stats.columns.length →
        ((plot_histograms df stats pal bins alpha color true).panels.getD k
          (basePanel 0 0)).col = k ∧
        (((plot_histograms df stats pal bins alpha color true).panels.getD k
          (basePanel 0 0)).draws.map DrawnPlot.x) = [some (stats.columns.getD k "")]) ∧
    (∀ (df : List Row) (c : String) (pal : Option String) (alpha : ℚ),
      (plot_category_count df [c] pal alpha).err =
        some "TypeError: Axes object is not subscriptable" ∧
      (plot_category_count df [c] pal alpha).panels = []) ∧
    (∀ (df : List Row) (stats : StatsTable) (pal : Option String) (bins : Nat)
        (alpha : ℚ) (color : String) (kde : Bool) (c : String),
      stats.columns = [c] →
      (plot_histograms df stats pal bins alpha color kde).err =
        some "TypeError: Axes object is not subscriptable" ∧
      (plot_histograms df stats pal bins alpha color kde).panels = []) := by
  refine ⟨?_, ?_, ?_, ?_, ?_⟩
  · intro df cats pal h
    refine ⟨(prop_panels_getD df cats pal h (Nat.pos_of_ne_zero
        (fun h0 => h (List.length_eq_zero.mp h0)))).1, ?_, ?_⟩
    · exact (prop_panels_getD df cats pal h (Nat.pos_of_ne_zero
        (fun h0 => h (List.length_eq_zero.mp h0)))).2.1
    · intro k hk
      obtain ⟨_, _, p, hp, hgd⟩ := prop_panels_getD df cats pal h hk
      obtain ⟨_, hcol, htitle, hxl, _, _, _, _⟩ := propCell_panel_props hp
      rw [hgd]
      exact ⟨hcol, hxl, htitle⟩
  · intro df cats pal alpha h
    have hpos : 0 < cats.length := by omega
    refine ⟨(count_panels_getD df cats pal alpha h hpos).1,
      (count_panels_getD df cats pal alpha h hpos).2.1, ?_⟩
    intro k hk
    obtain ⟨_, _, p, hp, hgd⟩ := count_panels_getD df cats pal alpha h hk
    obtain ⟨_, hcol, htitle, _, _, hdraws⟩ := countCell_panel_props hp
    rw [hgd]
    exact ⟨hcol, hdraws, htitle⟩
  · intro df stats pal bins alpha color h hstats hvar
    have hpos : 0 < stats.columns.length := by omega
    refine ⟨(hist_panels_getD df stats pal bins alpha color h hstats hvar hpos).1,
      (hist_panels_getD df stats pal bins alpha color h hstats hvar hpos).2.1, ?_⟩
    intro k hk
    obtain ⟨_, _, p, hp, hgd⟩ :=
      hist_panels_getD df stats pal bins alpha color h hstats hvar hk
    obtain ⟨_, hcol, _, _, _, _, _, _, hdraws⟩ := histCell_panel_props hp
    rw [hgd]
    exact ⟨hcol, hdraws⟩
  · intro df c pal alpha
    exact ⟨rfl, rfl⟩
  · intro df stats pal bins alpha color kde c hcols
    simp only [plot_histograms, hcols]
    exact ⟨rfl, rfl⟩

/-- C2 witness: the amended theorem applied to concrete calls of each
renderer. -/
theorem single_row_renderers_positional_amended_witness :
    ((plot_category_proportions dfW ["island"] none).panels.getD 0
      (basePanel 0 0)).xlabel = "island" ∧
    (plot_category_proportions dfW ["island"] none).panels.length = 1 ∧
    (plot_category_count dfW ["sex", "island"] none 1).err = none ∧
    ((plot_category_count dfW ["sex", "island"] none 1).panels.getD 1
      (basePanel 0 0)).title = "island Count" ∧
    (plot_histograms dfH statsW none 50 1 "#0f7175ff" true).err = none ∧
    (((plot_histograms dfH statsW none 50 1 "#0f7175ff" true).panels.getD 0
      (basePanel 0 0)).draws.map DrawnPlot.x) = [some "bl"] ∧
    (plot_category_count dfW ["species"] none 1).err =
      some "TypeError: Axes object is not subscriptable" :=
  ⟨((single_row_renderers_positional_amended.1 dfW ["island"] none
      (by decide)).2.2 0 (by decide)).2.1,
    (single_row_renderers_positional_amended.1 dfW ["island"] none
      (by decide)).2.1,
    (single_row_renderers_positional_amended.2.1 dfW ["sex", "island"] none 1
      (by decide)).1,
    ((single_row_renderers_positional_amended.2.1 dfW ["sex", "island"] none 1
      (by decide)).2.2 1 (by decide)).2.2,
    (single_row_renderers_positional_amended.2.2.1 dfH statsW none 50 1
      "#0f7175ff" (by decide) (by decide) (by decide)).1,
    ((single_row_renderers_positional_amended.2.2.1 dfH statsW none 50 1
      "#0f7175ff" (by decide) (by decide) (by decide)).2.2 0 (by decide)).2,
    (single_row_renderers_positional_amended.2.2.2.1 dfW "species" none 1).1⟩

theorem gridCells_length_aux (rows : List String) (cols : List String) (k : Nat) :
    ((enumFrom k rows).flatMap
      (fun p => (enumFrom 0 cols).map (fun q => (p, q)))).length =
      rows.length * cols.length := by
  induction rows generalizing k with
  | nil => simp [enumFrom]
  | cons a as ih =>
    simp only [enumFrom, List.flatMap_cons, List.length_append,
      List.length_map, enumFrom_length, List.length_cons, ih (k + 1)]
    rw [Nat.succ_mul]
    omega

theorem gridCells_length (rows cols : List String) :
    (gridCells rows cols).length = rows.length * cols.length :=
  gridCells_length_aux rows cols 0

theorem specie_panels_mem {df : List Row} {nums cats : List String}
    {sp : String} {pal : Option String} {bins : Nat} {p : Panel}
    (h : p ∈ (plot_distribution_specie df nums cats sp pal bins).panels) :
    ∃ shape, ∃ c ∈ gridCells nums cats,
      (specieCell (speciesFilter df sp) pal bins shape c).panel = some p := by
  simp only [plot_distribution_specie] at h
  rcases hs : subplotsShape nums.length cats.length with e | s
  · rw [hs] at h; simp at h
  · rw [hs] at h
    simp only at h
    obtain ⟨c, hc, hp⟩ := runCells_panels_mem h
    exact ⟨_, c, hc, hp⟩

/-- C9 counterexample: with a single numeric column the axes array is
one-dimensional and the chained subscript axs[i][j] raises a TypeError, so
for a species with no matching rows the renderer does not build the full
grid and raises an error of its own (an indexing error, not one from the
charting layer on empty input). -/
theorem specie_one_row_counterexample :
    speciesFilter [rowGentoo] "Adelie" = [] ∧
    (plot_distribution_specie [rowGentoo] ["bl"] ["sex", "island"] "Adelie"
      none 20).err = some "TypeError: Axes object is not subscriptable" ∧
    (plot_distribution_specie [rowGentoo] ["bl"] ["sex", "island"] "Adelie"
      none 20).panels = [] := by
  decide

/-- C9 (amended): provided both column lists have at least two entries (so
the axes array is two-dimensional and the chained subscript works),
plot_distribution_specie builds the full RxC grid with no error of its own
whatever the species label, even when no row matches: every panel draws
exactly the subset of rows whose species field equals the label under exact
string equality, in layered mode, and the figure suptitle names the
species. -/
theorem specie_filter_grid_amended (df : List Row) (nums cats : List String)
    (sp : String) (pal : Option String) (bins : Nat) (h1 : 2 ≤ nums.length)
    (h2 : 2 ≤ cats.length) :
    (plot_distribution_specie df nums cats sp pal bins).err = none ∧
    (plot_distribution_specie df nums cats sp pal bins).panels.length =
      nums.length * cats.length ∧
    (plot_distribution_specie df nums cats sp pal bins).suptitle =
      some (sp ++ " Species") ∧
    (∀ r, r ∈ speciesFilter df sp ↔
      (r ∈ df ∧ r.cat.lookup "species" = some sp)) ∧
    (∀ k, k < (plot_distribution_specie df nums cats sp pal bins).panels.length →
      ∀ d ∈ ((plot_distribution_specie df nums cats sp pal bins).panels.getD k
          (basePanel 0 0)).draws,
        d.data = speciesFilter df sp ∧ d.multiple = some "layer" ∧
          d.kind = PlotKind.hist) := by
  have heq := plot_specie_eq df nums cats sp pal bins h1 h2
  have hall : ∀ c ∈ gridCells nums cats,
      ((specieCell (speciesFilter df sp) pal bins
        (.grid nums.length cats.length)) c).err = none ∧
      (((specieCell (speciesFilter df sp) pal bins
        (.grid nums.length cats.length)) c).panel).isSome := by
    intro c hc
    obtain ⟨hcr, hcc⟩ := mem_gridCells hc
    obtain ⟨he, p, hp⟩ := cellGrid_ok_specie (mem_enumFrom_zero hcr).1
      (mem_enumFrom_zero hcc).1
    exact ⟨he, by rw [hp]; rfl⟩
  have hrun := runCells_all_ok hall
  refine ⟨?_, ?_, ?_, ?_, ?_⟩
  · simp only [heq]
    exact hrun.2
  · simp only [heq]
    rw [hrun.1, List.length_map, gridCells_length]
  · simp only [heq]
  · intro r
    simp [speciesFilter, List.mem_filter, beq_iff_eq]
  · intro k hk d hd
    obtain ⟨shape, c, _, hcell⟩ := specie_panels_mem (getD_mem hk (basePanel 0 0))
    obtain ⟨_, _, _, _, _, hdraws⟩ := specieCell_panel_props hcell
    obtain ⟨hkind, hdata, _, _, hm, _, _⟩ := hdraws d hd
    exact ⟨hdata, hm, hkind⟩

/-- C9 witness: the amended theorem applied to a concrete call with a
species label that matches no row. -/
theorem specie_filter_grid_amended_witness :
    (plot_distribution_specie [rowGentoo] ["bl", "bm"] ["sex", "island"]
      "Adelie" none 20).err = none ∧
    (plot_distribution_specie [rowGentoo] ["bl", "bm"] ["sex", "island"]
      "Adelie" none 20).panels.length = 4 ∧
    (plot_distribution_specie [rowGentoo] ["bl", "bm"] ["sex", "island"]
      "Adelie" none 20).suptitle = some "Adelie Species" ∧
    (((plot_distribution_specie [rowGentoo] ["bl", "bm"] ["sex", "island"]
      "Adelie" none 20).panels.getD 0 (basePanel 0 0)).draws.headD noDraw).data =
      speciesFilter [rowGentoo] "Adelie" ∧
    speciesFilter [rowGentoo] "Adelie" = [] := by
  have h := specie_filter_grid_amended [rowGentoo] ["bl", "bm"]
    ["sex", "island"] "Adelie" none 20 (by decide) (by decide)
  exact ⟨h.1, h.2.1, h.2.2.1,
    (h.2.2.2.2 0 (by decide) _ (by decide)).1, by decide⟩

theorem runCells_events_mem {f : α → CellOut} {cs : List α} {e : Ev}
    (h : e ∈ (runCells f cs).1) : ∃ c ∈ cs, e ∈ (f c).evs := by
  induction cs with
  | nil => simp [runCells] at h
  | cons c cs ih =>
    simp only [runCells] at h
    rcases he : (f c).err with _ | err
    · rw [he] at h
      simp only [List.mem_append] at h
      rcases h with h | h
      · exact ⟨c, List.mem_cons_self c cs, h⟩
      · obtain ⟨c', hc', he'⟩ := ih h
        exact ⟨c', List.mem_cons_of_mem c hc', he'⟩
    · rw [he] at h
      exact ⟨c, List.mem_cons_self c cs, h⟩

theorem histCell_evs_mem {df : List Row} {stats : StatsTable}
    {pal : Option String} {bins : Nat} {alpha : ℚ} {color : String}
    {kde : Bool} {shape : AxShape} {c : Nat × String} {e : Ev}
    (h : e ∈ (histCell df stats pal bins alpha color kde shape c).evs) :
    ∃ d, e = Ev.draw d ∧ d.x = some c.2 := by
  simp only [histCell] at h
  rcases hix : index1D shape c.1 with er | u
  · rw [hix] at h; simp at h
  · rw [hix] at h
    by_cases hkv : kde = true ∧ 2 ≤ (colNumDropna df c.2).dedup.length
    · rw [if_pos hkv] at h
      rcases h1 : stats.loc "25%" c.2 with _ | q1 <;> rw [h1] at h
      · simp only [List.mem_singleton] at h
        exact ⟨_, h, rfl⟩
      · rcases h2 : stats.loc "75%" c.2 with _ | q3 <;> rw [h2] at h
        · simp only [List.mem_singleton] at h
          exact ⟨_, h, rfl⟩
        · rcases h3 : stats.loc "mean" c.2 with _ | m <;> rw [h3] at h
          · simp only [List.mem_singleton] at h
            exact ⟨_, h, rfl⟩
          · simp only [List.mem_singleton] at h
            exact ⟨_, h, rfl⟩
    · rw [if_neg hkv] at h
      simp only [List.mem_singleton] at h
      exact ⟨_, h, rfl⟩

theorem histCell_isSome_of_ok {df : List Row} {stats : StatsTable}
    {pal : Option String} {bins : Nat} {alpha : ℚ} {color : String}
    {kde : Bool} {shape : AxShape} {c : Nat × String}
    (h : (histCell df stats pal bins alpha color kde shape c).err = none) :
    ((histCell df stats pal bins alpha color kde shape c).panel).isSome := by
  simp only [histCell] at h ⊢
  rcases hix : index1D shape c.1 with er | u
  · rw [hix] at h; simp at h
  · rw [hix] at h
    by_cases hkv : kde = true ∧ 2 ≤ (colNumDropna df c.2).dedup.length
    · rw [if_pos hkv] at h
      rw [if_pos hkv]
      rcases h1 : stats.loc "25%" c.2 with _ | q1 <;> rw [h1] at h
      · simp at h
      · rcases h2 : stats.loc "75%" c.2 with _ | q3 <;> rw [h2] at h
        · simp at h
        · rcases h3 : stats.loc "mean" c.2 with _ | m <;> rw [h3] at h
          · simp at h
          · simp [h1, h2, h3]
    · rw [if_neg hkv] at h
      simp at h

theorem runCells_of_err_none {f : α → CellOut} {cs : List α}
    (hnone : (runCells f cs).2.2 = none)
    (hps : ∀ c ∈ cs, (f c).err = none → ((f c).panel).isSome) :
    ∀ c ∈ cs, (f c).err = none ∧ ((f c).panel).isSome := by
  induction cs with
  | nil => simp
  | cons c cs ih =>
    simp only [runCells] at hnone
    rcases he : (f c).err with _ | e
    · rw [he] at hnone
      simp only at hnone
      intro c' hc'
      rcases List.mem_cons.mp hc' with h | h
      · subst h
        exact ⟨he, hps c' (List.mem_cons_self c' cs) he⟩
      · exact ih hnone (fun c'' hc'' => hps c'' (List.mem_cons_of_mem c hc'')) c' h
    · rw [he] at hnone
      simp at hnone

/-- C10: the panel row of plot_histograms is allocated with exactly one slot
per column of the caller-supplied statistics table; the drawn histograms
follow the statistics-table column order (the drawn columns are always a
prefix of it, and on a call that completes without error they are exactly
it, one panel per column); and every drawn histogram plots a
statistics-table column, so a dataframe column absent from the statistics
table is never plotted. -/
theorem histograms_panels_from_stats_columns :
    (∀ (df : List Row) (stats : StatsTable) (pal : Option String) (bins : Nat)
        (alpha : ℚ) (color : String) (kde : Bool),
      stats.columns ≠ [] →
      (plot_histograms df stats pal bins alpha color kde).events.head? =
        some (Ev.figure 1 stats.columns.length)) ∧
    (∀ (df : List Row) (stats : StatsTable) (pal : Option String) (bins : Nat)
        (alpha : ℚ) (color : String) (kde : Bool),
      drawCols (plot_histograms df stats pal bins alpha color kde).events =
        stats.columns.take
          (drawCols (plot_histograms df stats pal bins alpha color kde).events).length) ∧
    (∀ (df : List Row) (stats : StatsTable) (pal : Option String) (bins : Nat)
        (alpha : ℚ) (color : String) (kde : Bool) (d : DrawnPlot),
      Ev.draw d ∈ (plot_histograms df stats pal bins alpha color kde).events →
      ∃ c ∈ stats.columns, d.x = some c) ∧
    (∀ (df : List Row) (stats : StatsTable) (pal : Option String) (bins : Nat)
        (alpha : ℚ) (color : String) (kde : Bool),
      (plot_histograms df stats pal bins alpha color kde).err = none →
      (plot_histograms df stats pal bins alpha color kde).panels.length =
        stats.columns.length ∧
      ∀ k, k < stats.columns.length →
        ((plot_histograms df stats pal bins alpha color kde).panels.getD k
          (basePanel 0 0)).col = k ∧
        (((plot_histograms df stats pal bins alpha color kde).panels.getD k
          (basePanel 0 0)).draws.map DrawnPlot.x) =
          [some (stats.columns.getD k "")]) := by
  refine ⟨?_, ?_, ?_, ?_⟩
  · intro df stats pal bins alpha color kde hcols
    obtain ⟨s, hs⟩ := subplotsShape_pos (r := 1) (c := stats.columns.length)
      (by decide) (fun h0 => hcols (List.length_eq_zero.mp h0))
    simp only [plot_histograms, hs]
    rfl
  · intro df stats pal bins alpha color kde
    rcases hs : subplotsShape 1 stats.columns.length with e | s
    · simp only [plot_histograms, hs]
      simp [drawCols]
    · simp only [plot_histograms, hs]
      have hfig : drawCols (Ev.figure 1 stats.columns.length ::
          (runCells (histCell df stats pal bins alpha color kde s)
            (enumFrom 0 stats.columns)).1) =
          drawCols (runCells (histCell df stats pal bins alpha color kde s)
            (enumFrom 0 stats.columns)).1 := by
        simp [drawCols]
      rw [hfig]
      exact runCells_hist_drawCols_take df stats pal bins alpha color kde s
        stats.columns 0
  · intro df stats pal bins alpha color kde d hd
    rcases hs : subplotsShape 1 stats.columns.length with e | s
    · simp only [plot_histograms, hs] at hd
      simp at hd
    · simp only [plot_histograms, hs] at hd
      rcases List.mem_cons.mp hd with h | h
      · exact absurd h (by simp)
      · obtain ⟨c, hc, he⟩ := runCells_events_mem h
        obtain ⟨d', hd', hx⟩ := histCell_evs_mem he
        have hdd : d = d' := by
          injection hd' with h1
        rw [hdd]
        exact ⟨c.2, mem_of_mem_enumFrom hc, hx⟩
  · intro df stats pal bins alpha color kde herr
    rcases hcols : stats.columns with _ | ⟨c0, cs0⟩
    · simp only [plot_histograms, hcols] at herr
      simp [subplotsShape] at herr
    · rcases cs0 with _ | ⟨c1, cs1⟩
      · simp only [plot_histograms, hcols] at herr
        simp [subplotsShape, runCells, enumFrom, histCell, index1D] at herr
      · have hN : 2 ≤ stats.columns.length := by rw [hcols]; simp
        rw [← hcols]
        have heq := plot_histograms_eq df stats pal bins alpha color kde hN
        have herr2 : (runCells (histCell df stats pal bins alpha color kde
            (.line stats.columns.length)) (enumFrom 0 stats.columns)).2.2 = none := by
          rw [heq] at herr
          exact herr
        have hall := runCells_of_err_none herr2
          (fun c _ he => histCell_isSome_of_ok he)
        constructor
        · have hmain := line_renderer_panels_getD hall
            (k := 0) (by rw [hcols]; simp)
          simp only [heq]
          exact hmain.2.1
        · intro k hk
          have hmain := line_renderer_panels_getD hall hk
          obtain ⟨_, _, p, hp, hgd⟩ := hmain
          obtain ⟨_, hcol, _, _, _, _, _, _, hdraws⟩ := histCell_panel_props hp
          have hpanels : (plot_histograms df stats pal bins alpha color kde).panels.getD k
              (basePanel 0 0) = p := by
            simp only [heq]
            exact hgd
          rw [hpanels]
          exact ⟨hcol, hdraws⟩

/-- C10 witness: the theorem applied to a concrete call over a two-column
statistics table. -/
theorem histograms_panels_from_stats_columns_witness :
    (plot_histograms dfH statsW none 50 1 "#0f7175ff" true).events.head? =
      some (Ev.figure 1 2) ∧
    drawCols (plot_histograms dfH statsW none 50 1 "#0f7175ff" true).events =
      statsW.columns.take
        (drawCols (plot_histograms dfH statsW none 50 1 "#0f7175ff" true).events).length ∧
    (plot_histograms dfH statsW none 50 1 "#0f7175ff" true).panels.length = 2 ∧
    ((plot_histograms dfH statsW none 50 1 "#0f7175ff" true).panels.getD 1
      (basePanel 0 0)).col = 1 ∧
    (((plot_histograms dfH statsW none 50 1 "#0f7175ff" true).panels.getD 1
      (basePanel 0 0)).draws.map DrawnPlot.x) = [some "bm"] :=
  ⟨histograms_panels_from_stats_columns.1 dfH statsW none 50 1 "#0f7175ff"
      true (by decide),
    histograms_panels_from_stats_columns.2.1 dfH statsW none 50 1 "#0f7175ff" true,
    (histograms_panels_from_stats_columns.2.2.2 dfH statsW none 50 1
      "#0f7175ff" true (by decide)).1,
    ((histograms_panels_from_stats_columns.2.2.2 dfH statsW none 50 1
      "#0f7175ff" true (by decide)).2 1 (by decide)).1,
    ((histograms_panels_from_stats_columns.2.2.2 dfH statsW none 50 1
      "#0f7175ff" true (by decide)).2 1 (by decide)).2⟩

theorem hist_err_none_all_ok (df : List Row) (stats : StatsTable)
    (pal : Option String) (bins : Nat) (alpha : ℚ) (color : String)
    (kde : Bool)
    (herr : (plot_histograms df stats pal bins alpha color kde).err = none) :
    2 ≤ stats.columns.length ∧
    ∀ c ∈ enumFrom 0 stats.columns,
      ((histCell df stats pal bins alpha color kde
        (.line stats.columns.length)) c).err = none ∧
      (((histCell df stats pal bins alpha color kde
        (.line stats.columns.length)) c).panel).isSome := by
  rcases hcols : stats.columns with _ | ⟨c0, cs0⟩
  · simp only [plot_histograms, hcols] at herr
    simp [subplotsShape] at herr
  · rcases cs0 with _ | ⟨c1, cs1⟩
    · simp only [plot_histograms, hcols] at herr
      simp [subplotsShape, runCells, enumFrom, histCell, index1D] at herr
    · have hN : 2 ≤ stats.columns.length := by rw [hcols]; simp
      rw [← hcols]
      have heq := plot_histograms_eq df stats pal bins alpha color kde hN
      have herr2 : (runCells (histCell df stats pal bins alpha color kde
          (.line stats.columns.length)) (enumFrom 0 stats.columns)).2.2 = none := by
        rw [heq] at herr
        exact herr
      exact ⟨hN, runCells_of_err_none herr2
        (fun c _ he => histCell_isSome_of_ok he)⟩

theorem hist_success_getD (df : List Row) (stats : StatsTable)
    (pal : Option String) (bins : Nat) (alpha : ℚ) (color : String)
    (kde : Bool)
    (herr : (plot_histograms df stats pal bins alpha color kde).err = none)
    {k : Nat} (hk : k < stats.columns.length) :
    (plot_histograms df stats pal bins alpha color kde).panels.length =
      stats.columns.length ∧
    ∃ p, (histCell df stats pal bins alpha color kde
        (.line stats.columns.length) (k, stats.columns.getD k "")).panel = some p ∧
      (plot_histograms df stats pal bins alpha color kde).panels.getD k
        (basePanel 0 0) = p := by
  obtain ⟨hN, hall⟩ := hist_err_none_all_ok df stats pal bins alpha color kde herr
  have heq := plot_histograms_eq df stats pal bins alpha color kde hN
  have hmain := line_renderer_panels_getD hall hk
  exact ⟨by simp only [heq]; exact hmain.2.1, by simp only [heq]; exact hmain.2.2⟩

/-- C6: every completed panel of plot_histograms carries exactly the three
dashed reference lines, at the caller-supplied 25th percentile, 75th
percentile and mean of that panel statistics column, in the three distinct
fixed colors with labels Q1, Q3 and Mean, followed by a legend; and the
renderer never computes these statistics itself: any two dataframes for
which the call completes yield the very same vline lists across the whole
figure, the positions being read off the statistics table alone. -/
theorem histograms_three_vlines_from_stats :
    (∀ (df : List Row) (stats : StatsTable) (pal : Option String) (bins : Nat)
        (alpha : ℚ) (color : String) (kde : Bool) (k : Nat),
      k < (plot_histograms df stats pal bins alpha color kde).panels.length →
      kde = true ∧
      ((plot_histograms df stats pal bins alpha color kde).panels.getD k
        (basePanel 0 0)).legend = true ∧
      (stats.loc "25%" (stats.columns.getD
        ((plot_histograms df stats pal bins alpha color kde).panels.getD k
          (basePanel 0 0)).col "")).isSome ∧
      (stats.loc "75%" (stats.columns.getD
        ((plot_histograms df stats pal bins alpha color kde).panels.getD k
          (basePanel 0 0)).col "")).isSome ∧
      (stats.loc "mean" (stats.columns.getD
        ((plot_histograms df stats pal bins alpha color kde).panels.getD k
          (basePanel 0 0)).col "")).isSome ∧
      ((plot_histograms df stats pal bins alpha color kde).panels.getD k
        (basePanel 0 0)).vlines =
        [ { x := (stats.loc "25%" (stats.columns.getD
              ((plot_histograms df stats pal bins alpha color kde).panels.getD k
                (basePanel 0 0)).col "")).getD 0, color := "#f26a02",
            linestyle := "dashed", linewidth := 5/2, label := "Q1" },
          { x := (stats.loc "75%" (stats.columns.getD
              ((plot_histograms df stats pal bins alpha color kde).panels.getD k
                (basePanel 0 0)).col "")).getD 0, color := "#bd00b0",
            linestyle := "dashed", linewidth := 5/2, label := "Q3" },
          { x := (stats.loc "mean" (stats.columns.getD
              ((plot_histograms df stats pal bins alpha color kde).panels.getD k
                (basePanel 0 0)).col "")).getD 0, color := "#f75c6b",
            linestyle := "dashed", linewidth := 5/2, label := "Mean" } ]) ∧
    (∀ (df df' : List Row) (stats : StatsTable) (pal : Option String)
        (bins : Nat) (alpha : ℚ) (color : String) (kde : Bool),
      (plot_histograms df stats pal bins alpha color kde).err = none →
      (plot_histograms df' stats pal bins alpha color kde).err = none →
      (plot_histograms df stats pal bins alpha color kde).panels.map Panel.vlines =
        (plot_histograms df' stats pal bins alpha color kde).panels.map Panel.vlines) := by
  constructor
  · intro df stats pal bins alpha color kde k hk
    obtain ⟨shape, c, hc, hcell⟩ := hist_panels_mem (getD_mem hk (basePanel 0 0))
    obtain ⟨_, hcol, hleg, hkde, h25, h75, hmean, hvl, _⟩ :=
      histCell_panel_props hcell
    have hc2 := (mem_enumFrom_zero hc).2 ""
    have hcol2 : stats.columns.getD
        ((plot_histograms df stats pal bins alpha color kde).panels.getD k
          (basePanel 0 0)).col "" = c.2 := by
      rw [hcol, hc2]
    rw [hcol2]
    exact ⟨hkde, hleg, h25, h75, hmean, hvl⟩
  · intro df df' stats pal bins alpha color kde herr herr2
    have hN := (hist_err_none_all_ok df stats pal bins alpha color kde herr).1
    have hlen := (hist_success_getD df stats pal bins alpha color kde herr
      (k := 0) (by omega)).1
    have hlen2 := (hist_success_getD df' stats pal bins alpha color kde herr2
      (k := 0) (by omega)).1
    apply List.ext_getElem
    · rw [List.length_map, List.length_map, hlen, hlen2]
    · intro i h1 h2
      have hk : i < stats.columns.length := by
        rw [List.length_map, hlen] at h1
        exact h1
      obtain ⟨_, p, hp, hgd⟩ :=
        hist_success_getD df stats pal bins alpha color kde herr hk
      obtain ⟨_, q, hq, hgd2⟩ :=
        hist_success_getD df' stats pal bins alpha color kde herr2 hk
      have hi1 : i < (plot_histograms df stats pal bins alpha color kde).panels.length := by
        rw [hlen]
        exact hk
      have hi2 : i < (plot_histograms df' stats pal bins alpha color kde).panels.length := by
        rw [hlen2]
        exact hk
      have e1 : (plot_histograms df stats pal bins alpha color kde).panels[i] = p := by
        rw [← List.getD_eq_getElem _ (basePanel 0 0) hi1]
        exact hgd
      have e2 : (plot_histograms df' stats pal bins alpha color kde).panels[i] = q := by
        rw [← List.getD_eq_getElem _ (basePanel 0 0) hi2]
        exact hgd2
      rw [List.getElem_map, List.getElem_map, e1, e2]
      obtain ⟨_, _, _, _, _, _, _, hvl, _⟩ := histCell_panel_props hp
      obtain ⟨_, _, _, _, _, _, _, hvl2, _⟩ := histCell_panel_props hq
      rw [hvl, hvl2]

/-- C6 witness: the theorem applied to a concrete statistics table whose
entries place the three lines at 39, 46 and 41 for column bl. -/
theorem histograms_three_vlines_from_stats_witness :
    ((plot_histograms dfH statsW none 50 1 "#0f7175ff" true).panels.getD 0
      (basePanel 0 0)).legend = true ∧
    ((plot_histograms dfH statsW none 50 1 "#0f7175ff" true).panels.getD 0
      (basePanel 0 0)).vlines =
      [ { x := (statsW.loc "25%" (statsW.columns.getD
            ((plot_histograms dfH statsW none 50 1 "#0f7175ff" true).panels.getD 0
              (basePanel 0 0)).col "")).getD 0, color := "#f26a02",
          linestyle := "dashed", linewidth := 5/2, label := "Q1" },
        { x := (statsW.loc "75%" (statsW.columns.getD
            ((plot_histograms dfH statsW none 50 1 "#0f7175ff" true).panels.getD 0
              (basePanel 0 0)).col "")).getD 0, color := "#bd00b0",
          linestyle := "dashed", linewidth := 5/2, label := "Q3" },
        { x := (statsW.loc "mean" (statsW.columns.getD
            ((plot_histograms dfH statsW none 50 1 "#0f7175ff" true).panels.getD 0
              (basePanel 0 0)).col "")).getD 0, color := "#f75c6b",
          linestyle := "dashed", linewidth := 5/2, label := "Mean" } ] ∧
    (plot_histograms dfH statsW none 50 1 "#0f7175ff" true).panels.map
        Panel.vlines =
      (plot_histograms dfH2 statsW none 50 1 "#0f7175ff" true).panels.map
        Panel.vlines :=
  ⟨(histograms_three_vlines_from_stats.1 dfH statsW none 50 1 "#0f7175ff"
      true 0 (by decide)).2.1,
    (histograms_three_vlines_from_stats.1 dfH statsW none 50 1 "#0f7175ff"
      true 0 (by decide)).2.2.2.2.2,
    histograms_three_vlines_from_stats.2 dfH dfH2 statsW none 50 1 "#0f7175ff"
      true (by decide) (by decide)⟩

/-- C3: in plot_category_proportions, panel k draws exactly one bar per
distinct value of its categorical column, ordered ascending by label; each
bar height is the value count normalized by the number of counted (non
missing) values times 100, which is the count divided by the total row count
times 100 whenever the column is present in every row (the spec data model);
and each bar carries an annotation text at one unit above the bar top
holding the height formatted to two decimals and suffixed with a percent
sign. -/
theorem proportions_bars_exact (df : List Row) (cats : List String)
    (pal : Option String) (k : Nat)
    (hk : k < (plot_category_proportions df cats pal).panels.length) :
    (((plot_category_proportions df cats pal).panels.getD k
        (basePanel 0 0)).bars.map Bar.label).Perm
      (colValuesDropna df (cats.getD k "")).dedup ∧
    List.Sorted (fun a b : String => a ≤ b)
      (((plot_category_proportions df cats pal).panels.getD k
        (basePanel 0 0)).bars.map Bar.label) ∧
    (((plot_category_proportions df cats pal).panels.getD k
        (basePanel 0 0)).bars.map Bar.label).Nodup ∧
    (∀ b ∈ ((plot_category_proportions df cats pal).panels.getD k
        (basePanel 0 0)).bars,
      b.height = ((colValuesDropna df (cats.getD k "")).count b.label : ℚ) /
        ((colValuesDropna df (cats.getD k "")).length : ℚ) * 100) ∧
    ((∀ r ∈ df, (r.cat.lookup (cats.getD k "")).isSome) →
      ∀ b ∈ ((plot_category_proportions df cats pal).panels.getD k
          (basePanel 0 0)).bars,
        b.height = ((colValuesDropna df (cats.getD k "")).count b.label : ℚ) /
          (df.length : ℚ) * 100) ∧
    ((plot_category_proportions df cats pal).panels.getD k
        (basePanel 0 0)).notes =
      ((plot_category_proportions df cats pal).panels.getD k
        (basePanel 0 0)).bars.map
        (fun b => { x := b.x + b.width / 2, y := b.height + 1,
                    txt := pyFormat2 b.height ++ "%" : TextNote }) := by
  have hcne : cats ≠ [] := by
    intro h0
    subst h0
    have : (plot_category_proportions df [] pal).panels = [] := rfl
    rw [this] at hk
    simp at hk
  have hk0 : 0 < cats.length :=
    Nat.pos_of_ne_zero (fun h0 => hcne (List.length_eq_zero.mp h0))
  have hlen := (prop_panels_getD df cats pal hcne hk0).2.1
  have hk2 : k < cats.length := by
    rw [← hlen]
    exact hk
  obtain ⟨_, _, p, hp, hgd⟩ := prop_panels_getD df cats pal hcne hk2
  obtain ⟨_, _, _, _, _, _, hbars, hnotes⟩ := propCell_panel_props hp
  rw [hgd]
  have hlabels : p.bars.map Bar.label =
      (sortIndex ((valueCounts (colValuesDropna df (cats.getD k ""))).map
        (fun q => (q.1, q.2 * 100)))).map Prod.fst := by
    rw [hbars, List.map_map]
    exact enumFrom_map_comp 0 _ Prod.fst
  refine ⟨?_, ?_, ?_, ?_, ?_, ?_⟩
  · rw [hlabels]
    exact propPipeline_labels_perm _
  · rw [hlabels]
    exact List.Pairwise.map Prod.fst (fun a b h => h) (sortIndex_sorted _)
  · rw [hlabels]
    exact ((propPipeline_labels_perm _).symm.nodup (List.nodup_dedup _))
  · intro b hb
    rw [hbars] at hb
    rw [List.mem_map] at hb
    obtain ⟨q, hq, hmk⟩ := hb
    have hmem := mem_of_mem_enumFrom hq
    have hmem2 : (q.2.1, q.2.2) ∈ sortIndex
        ((valueCounts (colValuesDropna df (cats.getD k ""))).map
          (fun q => (q.1, q.2 * 100))) := by
      rw [Prod.mk.eta]
      exact hmem
    have hh := propPipeline_mem_height hmem2
    rw [← hmk]
    exact hh
  · intro hpres b hb
    rw [hbars] at hb
    rw [List.mem_map] at hb
    obtain ⟨q, hq, hmk⟩ := hb
    have hmem := mem_of_mem_enumFrom hq
    have hmem2 : (q.2.1, q.2.2) ∈ sortIndex
        ((valueCounts (colValuesDropna df (cats.getD k ""))).map
          (fun q => (q.1, q.2 * 100))) := by
      rw [Prod.mk.eta]
      exact hmem
    have hh := propPipeline_mem_height hmem2
    rw [← hmk]
    rw [← colValuesDropna_length hpres]
    exact hh
  · rw [hnotes]

/-- C3 witness: the theorem applied to a concrete table with one distinct
island value. -/
theorem proportions_bars_exact_witness :
    ((((plot_category_proportions [rowAdelieA, rowAdelieB] ["island"]
        none).panels.getD 0 (basePanel 0 0)).bars.map Bar.label).Perm
      (colValuesDropna [rowAdelieA, rowAdelieB] (["island"].getD 0 "")).dedup) ∧
    List.Sorted (fun a b : String => a ≤ b)
      (((plot_category_proportions [rowAdelieA, rowAdelieB] ["island"]
        none).panels.getD 0 (basePanel 0 0)).bars.map Bar.label) ∧
    ((plot_category_proportions [rowAdelieA, rowAdelieB] ["island"]
        none).panels.getD 0 (basePanel 0 0)).notes =
      ((plot_category_proportions [rowAdelieA, rowAdelieB] ["island"]
        none).panels.getD 0 (basePanel 0 0)).bars.map
        (fun b => { x := b.x + b.width / 2, y := b.height + 1,
                    txt := pyFormat2 b.height ++ "%" : TextNote }) := by
  have h := proportions_bars_exact [rowAdelieA, rowAdelieB] ["island"] none 0
    (by decide)
  exact ⟨h.1, h.2.1, h.2.2.2.2.2⟩

/-- C4 counterexample: on an empty table the column has no distinct values,
so the rendered percentage values of the panel sum to 0, not 100 (the y
range is still fixed to 0..100). -/
theorem proportions_sum_empty_counterexample :
    ((((plot_category_proportions [] ["island"] none).panels.getD 0
      (basePanel 0 0)).bars.map Bar.height).sum = 0) ∧
    ¬ ((((plot_category_proportions [] ["island"] none).panels.getD 0
      (basePanel 0 0)).bars.map Bar.height).sum = 100) ∧
    0 < (plot_category_proportions [] ["island"] none).panels.length := by
  refine ⟨rfl, ?_, by decide⟩
  intro h
  have : (0 : ℚ) = 100 := by
    rw [← h]
    rfl
  exact absurd this (by norm_num)

/-- C4 (amended): every panel of plot_category_proportions has its y range
fixed to exactly 0..100 whatever the data; and for a nonempty table whose
selected column is present in every row, the rendered percentage values of
a panel sum to exactly 100. -/
theorem proportions_sum_and_ylim_amended (df : List Row) (cats : List String)
    (pal : Option String) (k : Nat)
    (hk : k < (plot_category_proportions df cats pal).panels.length) :
    ((plot_category_proportions df cats pal).panels.getD k
      (basePanel 0 0)).ylim = some (0, 100) ∧
    (df ≠ [] → (∀ r ∈ df, (r.cat.lookup (cats.getD k "")).isSome) →
      ((((plot_category_proportions df cats pal).panels.getD k
        (basePanel 0 0)).bars.map Bar.height).sum = 100)) := by
  have hcne : cats ≠ [] := by
    intro h0
    subst h0
    have : (plot_category_proportions df [] pal).panels = [] := rfl
    rw [this] at hk
    simp at hk
  have hk0 : 0 < cats.length :=
    Nat.pos_of_ne_zero (fun h0 => hcne (List.length_eq_zero.mp h0))
  have hlen := (prop_panels_getD df cats pal hcne hk0).2.1
  have hk2 : k < cats.length := by
    rw [← hlen]
    exact hk
  obtain ⟨_, _, p, hp, hgd⟩ := prop_panels_getD df cats pal hcne hk2
  obtain ⟨_, _, _, _, _, hylim, hbars, _⟩ := propCell_panel_props hp
  rw [hgd]
  refine ⟨hylim, ?_⟩
  intro hdf hpres
  have hheights : p.bars.map Bar.height =
      (sortIndex ((valueCounts (colValuesDropna df (cats.getD k ""))).map
        (fun q => (q.1, q.2 * 100)))).map Prod.snd := by
    rw [hbars, List.map_map]
    exact enumFrom_map_comp 0 _ Prod.snd
  rw [hheights]
  apply propPipeline_sum
  intro h0
  have := colValuesDropna_length hpres
  rw [h0] at this
  exact hdf (List.length_eq_zero.mp this.symm)

/-- C4 witness: the amended theorem applied to a concrete two-row table. -/
theorem proportions_sum_and_ylim_amended_witness :
    ((plot_category_proportions [rowAdelieA, rowAdelieB] ["island"]
      none).panels.getD 0 (basePanel 0 0)).ylim = some (0, 100) ∧
    ((((plot_category_proportions [rowAdelieA, rowAdelieB] ["island"]
      none).panels.getD 0 (basePanel 0 0)).bars.map Bar.height).sum = 100) := by
  have h := proportions_sum_and_ylim_amended [rowAdelieA, rowAdelieB]
    ["island"] none 0 (by decide)
  exact ⟨h.1, h.2 (by decide) (by decide)⟩
